import Mathlib

/-!
Shallow embedding of the pyrisco Risco Cloud client, translated from
`pyrisco/cloud/risco_cloud.py`, `pyrisco/cloud/alarm.py`,
`pyrisco/cloud/single_partition.py` and `pyrisco/risco.py`.

Network I/O is modelled by a script of queued `NetResult`s that is consumed
one entry per outgoing request, and every outgoing request is recorded in a
log (newest entry first).  Python exceptions are modelled by an error monad
over the explicit state; Python `None` and unset attributes are modelled with
`Option`.  The source's unbounded mutual recursion between `_site_post` and
`login` (a 401 inside a site-scoped request triggers a fresh `login`, whose
dialect-detection state query is itself a site-scoped request) is cut with an
explicit fuel parameter on `login`.
-/

namespace Pyrisco

/-! Constants from `pyrisco/cloud/risco_cloud.py`. -/

def LOGIN_URL : String := "https://www.riscocloud.com/webapi/api/auth/login"

def SITE_URL : String := "https://www.riscocloud.com/webapi/api/wuws/site/GetAll"

def PIN_URL : String := "https://www.riscocloud.com/webapi/api/wuws/site/%s/Login"

def STATE_URL : String := "https://www.riscocloud.com/webapi/api/wuws/site/%s/ControlPanel/GetState"

def CONTROL_URL : String := "https://www.riscocloud.com/webapi/api/wuws/site/%s/ControlPanel/PartArm"

def CONTROL_URL_PANEL_MODE : String := "https://www.riscocloud.com/webapi/api/wuws/site/%s/ControlPanel/Arm"

def EVENTS_URL : String := "https://www.riscocloud.com/webapi/api/wuws/site/%s/ControlPanel/GetEventLog"

def BYPASS_URL : String := "https://www.riscocloud.com/webapi/api/wuws/site/%s/ControlPanel/SetZoneBypassStatus"

def PANEL_ARM : Int := 1

def PANEL_DISARM : Int := 0

def PANEL_PARTIAL_ARM : Int := 2

def PARTITION_ARM : Int := 3

def PARTITION_DISARM : Int := 1

def PARTITION_PARTIAL_ARM : Int := 2

def NUM_RETRIES : Nat := 3

def RETRYABLE_RESULT_CODE : Int := 72

/-- `GROUP_ID_TO_NAME = ["A", "B", "C", "D"]` from `pyrisco/risco.py`. -/
def GROUP_ID_TO_NAME : List String := ["A", "B", "C", "D"]

/-- The `PanelMode` control-state body template, the Python literal
`"\x7b\x7b\"newSystemStatus\": \x7b1\x7d \x7d\x7d"` whose characters (after
Python string-literal processing, before `.format`) are kept verbatim. -/
def PANEL_STATE_TEMPLATE : String := "\x7b\x7b\"newSystemStatus\": \x7b1\x7d \x7d\x7d"

/-- The `PanelMode` group body template (identical to the state template in the
source). -/
def PANEL_GROUP_TEMPLATE : String := "\x7b\x7b\"newSystemStatus\": \x7b1\x7d \x7d\x7d"

/-- The `PartitionMode` control-state body template
`'\x7b"partitions": [\x7b"id": \x7b0\x7d, "armedState": \x7b1\x7d\x7d],\x7d'`. -/
def PARTITION_STATE_TEMPLATE : String :=
  "\x7b\"partitions\": [\x7b\"id\": \x7b0\x7d, \"armedState\": \x7b1\x7d\x7d],\x7d"

/-- The `PartitionMode` group body template
`'\x7b"partitions": [\x7b"id": \x7b0\x7d, "groups": [\x7b"id": \x7b1\x7d, "state": \x7b2\x7d\x7d]\x7d],\x7d'`. -/
def PARTITION_GROUP_TEMPLATE : String :=
  "\x7b\"partitions\": [\x7b\"id\": \x7b0\x7d, \"groups\": [\x7b\"id\": \x7b1\x7d, \"state\": \x7b2\x7d\x7d]\x7d],\x7d"

/-! Python-value helpers. -/

/-- Truthiness of an optional Python string (`None` and `""` are falsy). -/
def pyTruthyOpt : Option String → Bool
  | none => false
  | some s => !(s == "")

/-- Python `str()` of the value stored in an optional-int attribute, as used by
`url % self._site_id` (`None` renders as `"None"`). -/
def pyOptIntStr : Option Int → String
  | none => "None"
  | some n => toString n

/-- Substitute the first `%s` of a `printf`-style template, as in
`url % self._site_id`. -/
def pctSubstList : List Char → String → List Char
  | [], _ => []
  | '%' :: 's' :: rest, arg => arg.toList ++ rest
  | c :: rest, arg => c :: pctSubstList rest arg

/-- `template % arg` for the URL templates of the source. -/
def pctS (template : String) (arg : String) : String :=
  ⟨pctSubstList template.toList arg⟩

/-- Interpret a run of decimal digits, if the (nonempty) name consists only of
digits. -/
def digitsToNat : List Char → Option Nat
  | [] => none
  | l =>
    l.foldl
      (fun acc c =>
        match acc with
        | none => none
        | some n => if c.isDigit then some (n * 10 + (c.toNat - 48)) else none)
      (some 0)

/-! Errors: one constructor per Python exception class the embedded code can
raise.  `scriptEnd` (the response script ran out) and `outOfFuel` (the fuel
bounding the source's unbounded `login`/`_site_post` recursion ran out) are
artifacts of the model, not of the source. -/

inductive RiscoError where
  | unauthorized (msg : String)
  | cannotConnect
  | operation (msg : String)
  | retryableOperation (msg : String)
  | clientConnectorError
  | typeError
  | keyError (k : String)
  | valueError
  | nameError
  | indexError
  | attributeError
  | scriptEnd
  | outOfFuel
deriving Repr, DecidableEq

/-- Model of CPython `str.format` restricted to the template shapes occurring
in the source: literal text, `\x7b\x7b`/`\x7d\x7d` escapes, and positional
fields `\x7bN\x7d`.  A field whose name is not a run of digits raises
`KeyError(name)` exactly as CPython does for the source's unescaped
`\x7b"partitions"...` templates; a lone `\x7d` raises `ValueError`; a
positional index beyond the argument tuple raises `IndexError`.  The fuel is
`chars.length + 1`, which one-or-more characters consumed per step can never
exhaust. -/
def pyFormatGo : Nat → List Char → List String → Except RiscoError (List Char)
  | 0, _, _ => .error .valueError
  | _ + 1, [], _ => .ok []
  | fuel + 1, '{' :: rest, args =>
    match rest with
    | '{' :: rest2 => (fun t => '{' :: t) <$> pyFormatGo fuel rest2 args
    | _ =>
      match rest.dropWhile fun c => !(c == '}' || c == ':' || c == '!') with
      | '}' :: rest3 =>
        match digitsToNat (rest.takeWhile fun c => !(c == '}' || c == ':' || c == '!')) with
        | some idx =>
          match args.get? idx with
          | some a => (fun t => a.toList ++ t) <$> pyFormatGo fuel rest3 args
          | none => .error .indexError
        | none => .error (.keyError ⟨rest.takeWhile fun c => !(c == '}' || c == ':' || c == '!')⟩)
      | _ =>
        match digitsToNat (rest.takeWhile fun c => !(c == '}' || c == ':' || c == '!')) with
        | some _ => .error .valueError
        | none => .error (.keyError ⟨rest.takeWhile fun c => !(c == '}' || c == ':' || c == '!')⟩)
  | fuel + 1, '}' :: rest, args =>
    match rest with
    | '}' :: rest2 => (fun t => '}' :: t) <$> pyFormatGo fuel rest2 args
    | _ => .error .valueError
  | fuel + 1, c :: rest, args => (fun t => c :: t) <$> pyFormatGo fuel rest args

/-- `template.format(args...)` (positional arguments already rendered with
Python `str`). -/
def pyFormat (template : String) (args : List String) : Except RiscoError String :=
  (fun l => (⟨l⟩ : String)) <$> pyFormatGo (template.toList.length + 1) template.toList args

/-! The data carried by scripted server responses. -/

/-- One record of the site-list response (`\x7bid, name, siteUUID\x7d`). -/
structure SiteRec where
  sid : Int
  name : String
  siteUUID : String
deriving Repr, DecidableEq

/-- One record of a multi-partition `partitions` collection; only the `id`
field is consulted by the embedded control flow. -/
structure PartRec where
  pid : Int
deriving Repr, DecidableEq

/-- The alarm-snapshot dictionary (`resp["state"]["status"]` of a state query,
or the payload of a control response).  `partitions = none` models the JSON
value `null`; `partitions = some l` models a list. -/
structure StateRaw where
  partitions : Option (List PartRec)
  systemStatus : Int
deriving Repr, DecidableEq

/-- The `response` field of a server reply, by shape. -/
inductive Payload where
  | loginResp (accessToken : Option String)
  | sitesResp (sites : List SiteRec)
  | pinResp (sessionId : String)
  | stateResp (raw : StateRaw)
  | rawResp (raw : StateRaw)
  | eventsResp (events : List Int)
  | nullResp
deriving Repr, DecidableEq

/-- A full server reply: `status` is always present; `result = none` models an
absent `"result"` key. -/
structure HttpResponse where
  status : Int
  errorText : String
  result : Option Int
  response : Payload
deriving Repr, DecidableEq

/-- Outcome of one network request: a reply, or a transport-level
`aiohttp.client_exceptions.ClientConnectorError`. -/
inductive NetResult where
  | ok (r : HttpResponse)
  | connFail
deriving Repr, DecidableEq

/-- Stand-in for Python `str(json)` used in `OperationError(str(json))` and
`RetryableOperationError(str(json))`; no claim depends on the exact rendering,
only on it being a deterministic function of the reply. -/
def pyStr (j : HttpResponse) : String :=
  "\x7b'status': " ++ toString j.status ++ ", 'errorText': '" ++ j.errorText ++ "'\x7d"

/-! Request bodies. -/

/-- The caller-supplied part of a site-scoped body (before `_site_post`
augments it). -/
inductive BaseBody where
  | emptyB
  | jsonStr (s : String)
  | eventsB (count : Int) (newerThan : String) (offset : Int)
  | bypassB (zoneId : Int) (status : Int)
deriving Repr, DecidableEq

/-- A body as actually posted. -/
inductive BodyV where
  | loginBody (userName : String) (password : String)
  | plainBody (b : BaseBody)
  | pinBody (languageId : String) (pinCode : String)
  | siteBody (base : BaseBody) (fromControlPanel : Bool) (sessionToken : Option String)
deriving Repr, DecidableEq

/-! Transport handles.  `origin` is a ghost tag recording whether the handle
was created by `_init_session` itself or supplied by the caller of `login`. -/

inductive Origin where
  | selfCreated
  | external
deriving Repr, DecidableEq

structure Transport where
  tid : Nat
  origin : Origin
deriving Repr, DecidableEq

/-- Observable events: each outgoing post (with the bearer token attached, if
any) and each closing of a transport handle. -/
inductive NetEvent where
  | post (url : String) (bearer : Option String) (body : BodyV)
  | closedT (t : Transport)
deriving Repr, DecidableEq

/-- The mutable attributes of a `RiscoCloud` instance.  Attributes the
constructor leaves unset (`_control_url` and friends) are `none`, and reading
them through `getAttr` raises `AttributeError`. -/
structure ClientState where
  username : String
  password : String
  pin : String
  language : String
  access_token : Option String
  session_id : Option String
  site_id : Option Int
  site_name : Option String
  site_uuid : Option String
  session : Option Transport
  created_session : Bool
  control_url : Option String
  state_body_template : Option String
  group_body_template : Option String
  state_arm : Option Int
  state_disarm : Option Int
  state_partial_arm : Option Int
deriving Repr, DecidableEq

/-- `RiscoCloud.__init__(username, password, pin, language="en")`. -/
def initClient (username password pin language : String) : ClientState :=
  { username := username
    password := password
    pin := pin
    language := language
    access_token := none
    session_id := none
    site_id := none
    site_name := none
    site_uuid := none
    session := none
    created_session := false
    control_url := none
    state_body_template := none
    group_body_template := none
    state_arm := none
    state_disarm := none
    state_partial_arm := none }

/-- Whole interpreter state: the client, the queued network script, the event
log (newest first) and a fresh-id counter for created transports. -/
structure St where
  client : ClientState
  script : List NetResult
  log : List NetEvent
  nextTid : Nat
deriving Repr, DecidableEq

/-! The interpretation monad: state threading plus Python exceptions.  State
updates performed before an exception is raised persist, as in Python. -/

def M (α : Type) : Type := St → Except RiscoError α × St

def M.pure {α : Type} (a : α) : M α := fun st => (.ok a, st)

def M.bind {α β : Type} (x : M α) (f : α → M β) : M β := fun st =>
  match x st with
  | (.ok a, st2) => f a st2
  | (.error e, st2) => (.error e, st2)

instance : Monad M where
  pure := M.pure
  bind := M.bind

def M.throw {α : Type} (e : RiscoError) : M α := fun st => (.error e, st)

def M.ofExcept {α : Type} : Except RiscoError α → M α
  | .ok a => M.pure a
  | .error e => M.throw e

/-- `try x except (matched by h) ...`: when `h e = some k` the handler `k`
runs from the state the failing computation left behind. -/
def M.tryCatch {α : Type} (x : M α) (h : RiscoError → Option (M α)) : M α := fun st =>
  match x st with
  | (.ok a, st2) => (.ok a, st2)
  | (.error e, st2) =>
    match h e with
    | some k => k st2
    | none => (.error e, st2)

def M.getClient : M ClientState := fun st => (.ok st.client, st)

def M.modifyClient (f : ClientState → ClientState) : M Unit := fun st =>
  (.ok (), { st with client := f st.client })

def M.logEvent (e : NetEvent) : M Unit := fun st =>
  (.ok (), { st with log := e :: st.log })

/-- Consume the next scripted network outcome. -/
def M.nextNet : M NetResult := fun st =>
  match st.script with
  | [] => (.error .scriptEnd, st)
  | r :: rest => (.ok r, { st with script := rest })

/-- Allocate a fresh self-created transport handle
(`aiohttp.ClientSession()`). -/
def M.createTransport : M Transport := fun st =>
  (.ok ⟨st.nextTid, .selfCreated⟩, { st with nextTid := st.nextTid + 1 })

/-- Log a post and consume its scripted outcome. -/
def netPost (url : String) (bearer : Option String) (b : BodyV) : M NetResult := do
  M.logEvent (.post url bearer b)
  M.nextNet

/-- Read an attribute that may be unset (`AttributeError`) or, for the
dialect-dependent fields of `RiscoAPI`, hold `None` (whose subsequent use also
raises). -/
def getAttr {α : Type} : Option α → M α
  | some a => M.pure a
  | none => M.throw .attributeError

/-! Response views (`pyrisco/cloud/alarm.py`,
`pyrisco/cloud/single_partition.py`). -/

/-- A value of `Alarm.partitions`: either the `SinglePartition` built over the
whole raw snapshot, or a multi-partition `Partition` built over one record. -/
inductive PartObj where
  | single (raw : StateRaw)
  | multi (rec : PartRec)
deriving Repr, DecidableEq

/-- Modelled from the spec: `pyrisco/cloud/partition.py` (the multi-partition
`Partition` class) is not under `src/`.  Per the spec, a state response that
carries a `partitions` collection puts the panel in `PartitionMode`, so a
partition record taken from such a collection reports `panel_mode = False`. -/
def multiPartitionPanelMode : Bool := false

/-- `panel_mode`: `SinglePartition.panel_mode` returns
`self._raw.get("partitions") is None` (from `single_partition.py`); the
multi-partition case is `multiPartitionPanelMode`. -/
def PartObj.panel_mode : PartObj → Bool
  | .single raw =>
    match raw.partitions with
    | none => true
    | some _ => false
  | .multi _ => multiPartitionPanelMode

/-- Python dict insertion: a duplicate key keeps its first position but takes
the new value. -/
def dictInsert (d : List (Int × PartObj)) (k : Int) (v : PartObj) : List (Int × PartObj) :=
  if d.any fun kv => kv.1 == k then d.map fun kv => if kv.1 == k then (k, v) else kv
  else d ++ [(k, v)]

/-- `\x7bp["id"]: Partition(self._api, p) for p in self._raw["partitions"]\x7d`. -/
def dictOfRecs (l : List PartRec) : List (Int × PartObj) :=
  l.foldl (fun d p => dictInsert d p.pid (.multi p)) []

/-- `Alarm` (cloud flavour): the raw snapshot plus the
`assumed_control_panel_state` flag passed by the API object. -/
structure Alarm where
  raw : StateRaw
  assumed_cp : Bool
deriving Repr, DecidableEq

/-- `Alarm.assumed_control_panel_state` property. -/
def Alarm.assumed_control_panel_state (a : Alarm) : Bool := a.assumed_cp

/-- `Alarm.partitions`: the raw `partitions` list keyed by id, or a single
synthetic partition with key 0 when `partitions` is `None`.  (The `None`-cache
in the source only memoizes this value.) -/
def Alarm.partitions (a : Alarm) : List (Int × PartObj) :=
  match a.raw.partitions with
  | some l => dictOfRecs l
  | none => [(0, .single a.raw)]

/-! The client operations of `RiscoCloud`. -/

/-- Is `"result" in json and json["result"] == v`? -/
def resultIs (j : HttpResponse) (v : Int) : Bool :=
  match j.result with
  | some r => r == v
  | none => false

/-- Is `"result" in json and json["result"] != 0`? -/
def resultNonzero (j : HttpResponse) : Bool :=
  match j.result with
  | some r => !(r == 0)
  | none => false

/-- `RiscoCloud._authenticated_post(url, body)`: attach the bearer token
(`"Bearer " + self._access_token` raises `TypeError` when the token is
`None`), post, then interpret `status`/`result`. -/
def authenticated_post (url : String) (body : BodyV) : M Payload := do
  let c ← M.getClient
  match c.access_token with
  | none => M.throw .typeError
  | some tok => do
    let nr ← netPost url (some tok) body
    match nr with
    | .connFail => M.throw .clientConnectorError
    | .ok j =>
      if j.status == 401 then M.throw (.unauthorized j.errorText)
      else if resultIs j RETRYABLE_RESULT_CODE then M.throw (.retryableOperation (pyStr j))
      else if resultNonzero j then M.throw (.operation (pyStr j))
      else M.pure j.response

/-- `RiscoCloud._login_user_pass()`. -/
def login_user_pass : M Unit := do
  let c ← M.getClient
  let nr ← netPost LOGIN_URL none (.loginBody c.username c.password)
  match nr with
  | .connFail => M.throw .cannotConnect
  | .ok j =>
    if j.status == 401 then M.throw (.unauthorized "Invalid username or password")
    else
      match j.response with
      | .loginResp tok => do
        M.modifyClient fun c2 => { c2 with access_token := tok }
        let c3 ← M.getClient
        if pyTruthyOpt c3.access_token then M.pure ()
        else M.throw (.unauthorized "Invalid username or password")
      | _ => M.throw .typeError

/-- `RiscoCloud._login_site()`: take the first entry of the site list. -/
def login_site : M Unit := do
  let resp ← authenticated_post SITE_URL (.plainBody .emptyB)
  match resp with
  | .sitesResp [] => M.throw .indexError
  | .sitesResp (s0 :: _) =>
    M.modifyClient fun c =>
      { c with site_id := some s0.sid, site_name := some s0.name, site_uuid := some s0.siteUUID }
  | _ => M.throw .typeError

/-- `RiscoCloud._login_session()`: exchange language+PIN for a session token. -/
def login_session : M Unit := do
  let c ← M.getClient
  let resp ← authenticated_post (pctS PIN_URL (pyOptIntStr c.site_id)) (.pinBody c.language c.pin)
  match resp with
  | .pinResp sid => M.modifyClient fun c2 => { c2 with session_id := some sid }
  | _ => M.throw .typeError

/-- `RiscoCloud.close()`. -/
def close : M Unit := do
  M.modifyClient fun c => { c with session_id := none }
  let c ← M.getClient
  if c.created_session then
    match c.session with
    | some t => do
      M.logEvent (.closedT t)
      M.modifyClient fun c2 => { c2 with session := none, created_session := false }
    | none => M.pure ()
  else M.pure ()

/-- `RiscoCloud._init_session(session)`. -/
def init_session (sessionArg : Option Transport) : M Unit := do
  close
  let c ← M.getClient
  match c.session with
  | some _ => M.pure ()
  | none =>
    match sessionArg with
    | none => do
      let t ← M.createTransport
      M.modifyClient fun c2 => { c2 with session := some t, created_session := true }
    | some s => M.modifyClient fun c2 => { c2 with session := some s }

/-- The retry loop of `RiscoCloud._site_post(url, body)`.  `login_` is the
`self.login()` the 401 handler awaits (instantiated with `login fuel none`
below).  `loopFuel` bounds the loop recursion of the model; `NUM_RETRIES` is
always enough, because the `i + 1 == NUM_RETRIES` check re-raises before a
fourth iteration could start. -/
def site_post_loop (login_ : M Unit) (site_url : String) (body : BaseBody) :
    Nat → Nat → Bool → M (Payload × Bool)
  | 0, _, _ => M.throw .outOfFuel
  | loopFuel + 1, i, from_control_panel =>
    M.tryCatch
      (do
        let c ← M.getClient
        let resp ← authenticated_post site_url (.siteBody body from_control_panel c.session_id)
        M.pure (resp, !from_control_panel))
      (fun e =>
        match e with
        | .unauthorized _ =>
          some
            (if i + 1 == NUM_RETRIES then M.throw e
             else do
               close
               login_
               site_post_loop login_ site_url body loopFuel (i + 1) from_control_panel)
        | .retryableOperation _ =>
          some
            (if i + 1 == NUM_RETRIES then
               M.throw (.operation "Failed to perform operation after retries")
             else site_post_loop login_ site_url body loopFuel (i + 1) false)
        | _ => none)

/-- `RiscoCloud._site_post(url, body)` with the re-login routine abstracted. -/
def site_postF (login_ : M Unit) (url : String) (body : BaseBody) : M (Payload × Bool) := do
  let c ← M.getClient
  site_post_loop login_ (pctS url (pyOptIntStr c.site_id)) body NUM_RETRIES 0 true

/-- `RiscoCloud.get_state()` with the re-login routine abstracted:
`Alarm(self, resp["state"]["status"], assumed_control_panel_state)`. -/
def get_stateF (login_ : M Unit) : M Alarm := do
  let ra ← site_postF login_ STATE_URL .emptyB
  match ra.1 with
  | .stateResp raw => M.pure ⟨raw, ra.2⟩
  | _ => M.throw .typeError

/-- `RiscoCloud._init_system_partion_type()` with the re-login routine
abstracted: dialect detection at the end of `login`. -/
def init_system_partion_typeF (login_ : M Unit) : M Unit := do
  let alarm ← get_stateF login_
  match (Alarm.partitions alarm).map Prod.snd with
  | [] => M.throw .indexError
  | first :: _ =>
    if first.panel_mode then
      M.modifyClient fun c =>
        { c with
          control_url := some CONTROL_URL_PANEL_MODE
          state_body_template := some PANEL_STATE_TEMPLATE
          group_body_template := some PANEL_GROUP_TEMPLATE
          state_arm := some PANEL_ARM
          state_disarm := some PANEL_DISARM
          state_partial_arm := some PANEL_PARTIAL_ARM }
    else
      M.modifyClient fun c =>
        { c with
          control_url := some CONTROL_URL
          state_body_template := some PARTITION_STATE_TEMPLATE
          group_body_template := some PARTITION_GROUP_TEMPLATE
          state_arm := some PARTITION_ARM
          state_disarm := some PARTITION_DISARM
          state_partial_arm := some PARTITION_PARTIAL_ARM }

/-- `RiscoCloud.login(session=None)`.  `fuel` bounds the depth of the
source's unbounded `login` / `_site_post` mutual recursion (a model artifact);
each nested re-login runs with one unit less. -/
def login : Nat → Option Transport → M Unit
  | fuel, sessionArg => do
    let c ← M.getClient
    if pyTruthyOpt c.session_id then M.pure ()
    else
      match fuel with
      | 0 => M.throw .outOfFuel
      | n + 1 => do
        init_session sessionArg
        login_user_pass
        login_site
        login_session
        init_system_partion_typeF (login n none)

/-- `RiscoCloud._site_post` as called by the public operations. -/
def site_post (fuel : Nat) (url : String) (body : BaseBody) : M (Payload × Bool) :=
  site_postF (login fuel none) url body

/-- `RiscoCloud.get_state()`. -/
def get_state (fuel : Nat) : M Alarm :=
  get_stateF (login fuel none)

/-- `RiscoCloud._init_system_partion_type()`. -/
def init_system_partion_type (fuel : Nat) : M Unit :=
  init_system_partion_typeF (login fuel none)

/-- `RiscoCloud._send_control_command(body)`. -/
def send_control_command (fuel : Nat) (body : BaseBody) : M Alarm := do
  let c ← M.getClient
  let curl ← getAttr c.control_url
  let ra ← site_post fuel curl body
  match ra.1 with
  | .rawResp raw => M.pure ⟨raw, ra.2⟩
  | _ => M.throw .typeError

/-- `json.loads`: the parsed dictionary is identified by its source text (the
parse is a pure function of the string, so equal strings parse to equal
dictionaries; every string the embedded flow feeds it is valid JSON, the
malformed partition-mode templates having already raised inside
`str.format`). -/
def jsonLoads (s : String) : Except RiscoError BaseBody := .ok (.jsonStr s)

/-- `RiscoCloud.disarm(partition)`. -/
def disarm (fuel : Nat) (partition : Int) : M Alarm := do
  let c ← M.getClient
  let tmpl ← getAttr c.state_body_template
  let code ← getAttr c.state_disarm
  let bodyStr ← M.ofExcept (pyFormat tmpl [toString partition, toString code])
  let body ← M.ofExcept (jsonLoads bodyStr)
  send_control_command fuel body

/-- `RiscoCloud.arm(partition)`. -/
def arm (fuel : Nat) (partition : Int) : M Alarm := do
  let c ← M.getClient
  let tmpl ← getAttr c.state_body_template
  let code ← getAttr c.state_arm
  let bodyStr ← M.ofExcept (pyFormat tmpl [toString partition, toString code])
  let body ← M.ofExcept (jsonLoads bodyStr)
  send_control_command fuel body

/-- `RiscoCloud.partial_arm(partition)`. -/
def partial_arm (fuel : Nat) (partition : Int) : M Alarm := do
  let c ← M.getClient
  let tmpl ← getAttr c.state_body_template
  let code ← getAttr c.state_partial_arm
  let bodyStr ← M.ofExcept (pyFormat tmpl [toString partition, toString code])
  let body ← M.ofExcept (jsonLoads bodyStr)
  send_control_command fuel body

/-- The `group` argument of `group_arm`: a Python `str` or `int`. -/
inductive GroupArg where
  | grpStr (s : String)
  | grpInt (n : Int)
deriving Repr, DecidableEq

/-- Python `list.index` (raises `ValueError` when absent, modelled as
`none`). -/
def pyListIndexAux : List String → String → Nat → Option Nat
  | [], _, _ => none
  | x :: rest, s, k => if x == s then some k else pyListIndexAux rest s (k + 1)

def pyListIndex (l : List String) (s : String) : Option Nat :=
  pyListIndexAux l s 0

/-- `RiscoCloud.group_arm(partition, group)`.  Note the source builds `body`
only inside the `isinstance(group, str)` branch and hardcodes the state code
`3`; a non-string `group` reaches `self._send_control_command(body)` with
`body` unbound, a `NameError`. -/
def group_arm (fuel : Nat) (partition : Int) (group : GroupArg) : M Alarm :=
  match group with
  | .grpStr s => do
    let g ← match pyListIndex GROUP_ID_TO_NAME s with
            | some n => M.pure n
            | none => M.throw .valueError
    let c ← M.getClient
    let tmpl ← getAttr c.group_body_template
    let bodyStr ← M.ofExcept (pyFormat tmpl [toString partition, toString (g : Nat), toString (3 : Int)])
    let body ← M.ofExcept (jsonLoads bodyStr)
    send_control_command fuel body
  | .grpInt _ => M.throw .nameError

/-- `RiscoCloud.get_events(newer_than, count=10)`. -/
def get_events (fuel : Nat) (newer_than : String) (count : Int) : M (List Int) := do
  let ra ← site_post fuel EVENTS_URL (.eventsB count newer_than 0)
  match ra.1 with
  | .eventsResp l => M.pure l
  | _ => M.throw .typeError

/-- `RiscoCloud.bypass_zone(zone, bypass)`. -/
def bypass_zone (fuel : Nat) (zone : Int) (bypass : Bool) : M Alarm := do
  let status : Int := if bypass then 2 else 3
  let ra ← site_post fuel BYPASS_URL (.bypassB zone status)
  match ra.1 with
  | .rawResp raw => M.pure ⟨raw, ra.2⟩
  | _ => M.throw .typeError

/-! Run lemmas: how the monad operations act on a state, used by `simp` to
evaluate and reason about runs. -/

@[simp]
theorem bind_apply {α β : Type} (x : M α) (f : α → M β) (st : St) :
    (x >>= f) st =
      match x st with
      | (.ok a, st2) => f a st2
      | (.error e, st2) => (.error e, st2) := rfl

@[simp]
theorem pure_apply {α : Type} (a : α) (st : St) : (Pure.pure a : M α) st = (.ok a, st) := rfl

@[simp]
theorem mpure_apply {α : Type} (a : α) (st : St) : (M.pure a : M α) st = (.ok a, st) := rfl

@[simp]
theorem throw_apply {α : Type} (e : RiscoError) (st : St) :
    (M.throw e : M α) st = (.error e, st) := rfl

@[simp]
theorem tryCatch_apply {α : Type} (x : M α) (h : RiscoError → Option (M α)) (st : St) :
    M.tryCatch x h st =
      match x st with
      | (.ok a, st2) => (.ok a, st2)
      | (.error e, st2) =>
        match h e with
        | some k => k st2
        | none => (.error e, st2) := rfl

@[simp]
theorem getClient_apply (st : St) : M.getClient st = (.ok st.client, st) := rfl

@[simp]
theorem modifyClient_apply (f : ClientState → ClientState) (st : St) :
    M.modifyClient f st = (.ok (), { st with client := f st.client }) := rfl

@[simp]
theorem logEvent_apply (e : NetEvent) (st : St) :
    M.logEvent e st = (.ok (), { st with log := e :: st.log }) := rfl

@[simp]
theorem nextNet_apply (st : St) :
    M.nextNet st =
      match st.script with
      | [] => (.error .scriptEnd, st)
      | r :: rest => (.ok r, { st with script := rest }) := rfl

@[simp]
theorem createTransport_apply (st : St) :
    M.createTransport st =
      (.ok ⟨st.nextTid, .selfCreated⟩, { st with nextTid := st.nextTid + 1 }) := rfl

@[simp]
theorem ofExcept_ok {α : Type} (a : α) : (M.ofExcept (.ok a) : M α) = M.pure a := rfl

@[simp]
theorem ofExcept_error {α : Type} (e : RiscoError) :
    (M.ofExcept (.error e) : M α) = M.throw e := rfl

/-! Concrete fixtures used by witnesses and counterexamples. -/

/-- A client that completed a `PanelMode` login. -/
def panelClient : ClientState :=
  { initClient "u" "p" "1234" "en" with
    access_token := some "tok"
    session_id := some "sess"
    site_id := some 5
    control_url := some CONTROL_URL_PANEL_MODE
    state_body_template := some PANEL_STATE_TEMPLATE
    group_body_template := some PANEL_GROUP_TEMPLATE
    state_arm := some PANEL_ARM
    state_disarm := some PANEL_DISARM
    state_partial_arm := some PANEL_PARTIAL_ARM }

/-- A client that completed a `PartitionMode` login. -/
def partClient : ClientState :=
  { panelClient with
    control_url := some CONTROL_URL
    state_body_template := some PARTITION_STATE_TEMPLATE
    group_body_template := some PARTITION_GROUP_TEMPLATE
    state_arm := some PARTITION_ARM
    state_disarm := some PARTITION_DISARM
    state_partial_arm := some PARTITION_PARTIAL_ARM }

/-- A state holding one successful control-command response. -/
def ctlSt (c : ClientState) : St :=
  ⟨c, [.ok ⟨200, "", some 0, .rawResp ⟨none, 1⟩⟩], [], 1⟩

/-! ## Claim C7 -/

/-- **C7** (the code diverges from the claim): `RiscoCloud.group_arm` builds
the request body only inside its `isinstance(group, str)` branch, so the
numeric group index `1` raises `NameError` before any payload exists and
nothing is posted, while the letter `"B"` (mapped to index 1) under the
`PanelMode` dialect posts `\x7b"newSystemStatus": 1 \x7d` — the group index
substituted as the system status by the template, with the hardcoded state
code `3` discarded and the dialect's arm code unused — and under
`PartitionMode` the unescaped group template raises `KeyError('"partitions"')`
inside `str.format`, so no payload is produced at all. -/
theorem c7_group_arm_numeric_vs_letter :
    (group_arm 5 1 (.grpInt 1) (ctlSt panelClient)).1 = .error .nameError
  ∧ (group_arm 5 1 (.grpInt 1) (ctlSt panelClient)).2.log = []
  ∧ (group_arm 5 1 (.grpStr "B") (ctlSt panelClient)).2.log =
      [.post (pctS CONTROL_URL_PANEL_MODE (pyOptIntStr (some 5))) (some "tok")
         (.siteBody (.jsonStr "\x7b\"newSystemStatus\": 1 \x7d") true (some "sess"))]
  ∧ (group_arm 5 1 (.grpStr "B") (ctlSt partClient)).1 = .error (.keyError "\"partitions\"")
  ∧ (group_arm 5 1 (.grpStr "B") (ctlSt partClient)).2.log = [] := by
  refine ⟨?_, ?_, ?_, ?_, ?_⟩ <;>
    (simp [group_arm, send_control_command, site_post, site_postF, site_post_loop,
      authenticated_post, netPost, getAttr, jsonLoads, pyListIndex, pyListIndexAux,
      GROUP_ID_TO_NAME, ctlSt, panelClient, partClient, initClient, pyFormat,
      pyFormatGo, digitsToNat, PANEL_GROUP_TEMPLATE, PARTITION_GROUP_TEMPLATE,
      resultIs, resultNonzero, RETRYABLE_RESULT_CODE, NUM_RETRIES, login, pyTruthyOpt]
     <;> rfl)

/-! ## Claim C8 -/

/-- **C8** counterexample: after a completed `PanelMode` login, `close()`
clears the session token but leaves the bearer token, the site identifier and
the cached dialect constants set — the state is not returned to the pre-login
empty state. -/
theorem c8_close_keeps_tokens_counterexample :
    (close (ctlSt panelClient)).2.client.session_id = none
  ∧ (close (ctlSt panelClient)).2.client.access_token = some "tok"
  ∧ (close (ctlSt panelClient)).2.client.site_id = some 5
  ∧ (close (ctlSt panelClient)).2.client.control_url = some CONTROL_URL_PANEL_MODE
  ∧ (close (ctlSt panelClient)).2.client.state_arm = some PANEL_ARM := by
  refine ⟨?_, ?_, ?_, ?_, ?_⟩ <;> simp [close, ctlSt, panelClient, initClient]

/-- **C8** amended: `close()` clears exactly the session token (plus, when
the transport handle was self-created, the handle and its flag); the bearer
token, the site identifier/name/UUID and all cached dialect constants persist
across `close()` and are only overwritten by the next login. -/
theorem c8_close_clears_only_session_token (st : St) :
    (close st).1 = .ok ()
  ∧ (close st).2.client.session_id = none
  ∧ (close st).2.client.access_token = st.client.access_token
  ∧ (close st).2.client.site_id = st.client.site_id
  ∧ (close st).2.client.site_name = st.client.site_name
  ∧ (close st).2.client.site_uuid = st.client.site_uuid
  ∧ (close st).2.client.control_url = st.client.control_url
  ∧ (close st).2.client.state_body_template = st.client.state_body_template
  ∧ (close st).2.client.group_body_template = st.client.group_body_template
  ∧ (close st).2.client.state_arm = st.client.state_arm
  ∧ (close st).2.client.state_disarm = st.client.state_disarm
  ∧ (close st).2.client.state_partial_arm = st.client.state_partial_arm := by
  cases h1 : st.client.created_session <;> cases h2 : st.client.session <;>
    simp [close, h1, h2]

/-! ## Claim C5 -/

/-- A client state whose session token is present but empty, with a script for
one full successful handshake. -/
def emptyTokSt : St :=
  ⟨{ initClient "u" "p" "1234" "en" with session_id := some "" },
   [.ok ⟨200, "", none, .loginResp (some "tok")⟩,
    .ok ⟨200, "", some 0, .sitesResp [⟨5, "nm", "uu"⟩]⟩,
    .ok ⟨200, "", some 0, .pinResp "sess1"⟩,
    .ok ⟨200, "", some 0, .stateResp ⟨none, 0⟩⟩], [], 0⟩

/-- **C5** counterexample: the guard of `login()` is `if self._session_id:` —
Python truthiness, not presence.  In a state whose session token is present
but empty (`some ""`, the state `_login_session` leaves when the server
returns `sessionId = ""`), `login()` is not a no-op: it performs four network
requests and replaces the session state. -/
theorem c5_login_empty_token_counterexample :
    emptyTokSt.client.session_id = some ""
  ∧ (login 5 none emptyTokSt).2.log.length = 4
  ∧ (login 5 none emptyTokSt).2.client.session_id = some "sess1" := by
  refine ⟨rfl, ?_, ?_⟩ <;>
    simp [login, init_session, close, login_user_pass, login_site, login_session,
      init_system_partion_typeF, get_stateF, site_postF, site_post_loop,
      authenticated_post, netPost, emptyTokSt, initClient, pyTruthyOpt, resultIs,
      resultNonzero, RETRYABLE_RESULT_CODE, NUM_RETRIES, Alarm.partitions,
      PartObj.panel_mode]

/-- **C5** amended: when the session token is present *and non-empty*
(truthy), `login()` returns immediately: no network request, no log entry, no
state change at all. -/
theorem c5_login_noop_when_truthy_token (fuel : Nat) (arg : Option Transport)
    (st : St) (s : String) (hs : st.client.session_id = some s) (hne : s ≠ "") :
    login fuel arg st = (.ok (), st) := by
  rw [login.eq_def]
  simp [pyTruthyOpt, hs, hne]

/-- **C5** witness: a non-empty cached session token makes `login` the
identity. -/
theorem c5_login_noop_witness :
    login 3 none (ctlSt panelClient) = (.ok (), ctlSt panelClient) :=
  c5_login_noop_when_truthy_token 3 none (ctlSt panelClient) "sess" rfl (by decide)

/-! ## Claim C6 -/

/-- **C6**: in `_login_user_pass`, a server-signalled 401 raises
`UnauthorizedError("Invalid username or password")`; a transport-level
connection failure raises the distinct `CannotConnectError`; and a non-401
response whose `accessToken` is absent or empty also raises
`UnauthorizedError("Invalid username or password")`. -/
theorem c6_login_user_pass_errors :
    (∀ (st : St) (j : HttpResponse) (rest : List NetResult),
       st.script = .ok j :: rest → j.status = 401 →
       (login_user_pass st).1 = .error (.unauthorized "Invalid username or password"))
  ∧ (∀ (st : St) (rest : List NetResult),
       st.script = .connFail :: rest →
       (login_user_pass st).1 = .error .cannotConnect)
  ∧ (∀ (st : St) (j : HttpResponse) (rest : List NetResult) (tokOpt : Option String),
       st.script = .ok j :: rest → j.status ≠ 401 → j.response = .loginResp tokOpt →
       pyTruthyOpt tokOpt = false →
       (login_user_pass st).1 = .error (.unauthorized "Invalid username or password")) := by
  refine ⟨?_, ?_, ?_⟩
  · intro st j rest hscript h401
    simp [login_user_pass, netPost, hscript, h401]
  · intro st rest hscript
    simp [login_user_pass, netPost, hscript]
  · intro st j rest tokOpt hscript hne hresp hfalsy
    simp [login_user_pass, netPost, hscript, hne, hresp, hfalsy]

/-- **C6** witness: the three error paths at concrete inputs. -/
theorem c6_login_user_pass_errors_witness :
    (login_user_pass ⟨initClient "u" "p" "1" "en", [.ok ⟨401, "x", none, .nullResp⟩], [], 0⟩).1
        = .error (.unauthorized "Invalid username or password")
  ∧ (login_user_pass ⟨initClient "u" "p" "1" "en", [.connFail], [], 0⟩).1 = .error .cannotConnect
  ∧ (login_user_pass ⟨initClient "u" "p" "1" "en", [.ok ⟨200, "", none, .loginResp none⟩], [], 0⟩).1
        = .error (.unauthorized "Invalid username or password") :=
  ⟨c6_login_user_pass_errors.1 _ _ _ rfl rfl,
   c6_login_user_pass_errors.2.1 _ _ rfl,
   c6_login_user_pass_errors.2.2 _ _ _ none rfl (by decide) rfl rfl⟩

/-! ## Claim C3 -/

theorem dictInsert_ne_nil (d : List (Int × PartObj)) (k : Int) (v : PartObj) :
    dictInsert d k v ≠ [] := by
  unfold dictInsert
  split
  · next h =>
    cases d with
    | nil => simp at h
    | cons a t => simp
  · simp

theorem dictInsert_all_multi (d : List (Int × PartObj)) (k : Int) (rec : PartRec)
    (h : ∀ kv ∈ d, ∃ r, kv.2 = PartObj.multi r) :
    ∀ kv ∈ dictInsert d k (.multi rec), ∃ r, kv.2 = PartObj.multi r := by
  unfold dictInsert
  split
  · intro kv hkv
    rw [List.mem_map] at hkv
    obtain ⟨a, ha, hfa⟩ := hkv
    by_cases hk : (a.1 == k) = true
    · rw [if_pos hk] at hfa
      exact ⟨rec, by rw [← hfa]⟩
    · rw [if_neg hk] at hfa
      exact hfa ▸ h a ha
  · intro kv hkv
    rcases List.mem_append.mp hkv with hin | hone
    · exact h kv hin
    · rcases List.mem_singleton.mp hone with rfl
      exact ⟨rec, rfl⟩

theorem dictOfRecs_go_all_multi (l : List PartRec) :
    ∀ d, (∀ kv ∈ d, ∃ r, kv.2 = PartObj.multi r) →
      ∀ kv ∈ l.foldl (fun d p => dictInsert d p.pid (.multi p)) d, ∃ r, kv.2 = PartObj.multi r := by
  induction l with
  | nil => intro d h; simpa using h
  | cons p t ih =>
    intro d h
    rw [List.foldl_cons]
    exact ih _ (dictInsert_all_multi d p.pid p h)

theorem dictOfRecs_go_ne_nil (l : List PartRec) :
    ∀ d, d ≠ [] → l.foldl (fun d p => dictInsert d p.pid (.multi p)) d ≠ [] := by
  induction l with
  | nil => intro d h; simpa using h
  | cons p t ih =>
    intro d _
    rw [List.foldl_cons]
    exact ih _ (dictInsert_ne_nil d p.pid (.multi p))

theorem dictOfRecs_cons_ne_nil (p : PartRec) (l : List PartRec) :
    dictOfRecs (p :: l) ≠ [] := by
  unfold dictOfRecs
  rw [List.foldl_cons]
  exact dictOfRecs_go_ne_nil l _ (dictInsert_ne_nil [] p.pid (.multi p))

theorem dictOfRecs_all_multi (l : List PartRec) :
    ∀ kv ∈ dictOfRecs l, ∃ r, kv.2 = PartObj.multi r :=
  dictOfRecs_go_all_multi l [] (by simp)

/-- A state query that succeeds on its first attempt returns the alarm built
from the `state.status` payload with `assumed_control_panel_state = False`,
consuming one script entry and logging one attempt. -/
theorem get_stateF_ok (login_ : M Unit) (st : St) (tok : String) (raw : StateRaw)
    (rest : List NetResult) (htok : st.client.access_token = some tok)
    (hscript : st.script = .ok ⟨200, "", some 0, .stateResp raw⟩ :: rest) :
    get_stateF login_ st =
      (.ok ⟨raw, false⟩,
       { st with script := rest
                 log := .post (pctS STATE_URL (pyOptIntStr st.client.site_id)) (some tok)
                          (.siteBody .emptyB true st.client.session_id) :: st.log }) := by
  simp [get_stateF, site_postF, site_post_loop, authenticated_post, netPost,
    resultIs, resultNonzero, RETRYABLE_RESULT_CODE, NUM_RETRIES, htok, hscript]

/-- **C3** amended: at the dialect-detection step, a state response whose
`partitions` is `null` resolves to `PanelMode` (whole-panel arm endpoint,
codes arm=1 / disarm=0 / partial=2), and one carrying a *non-empty*
`partitions` list resolves to `PartitionMode` (per-partition arm endpoint,
codes arm=3 / disarm=1 / partial=2).  (An empty `partitions` list instead
raises `IndexError`, see the counterexample.) -/
theorem c3_dialect_detection (fuel : Nat) (st : St) (tok : String) (raw : StateRaw)
    (rest : List NetResult) (htok : st.client.access_token = some tok)
    (hscript : st.script = .ok ⟨200, "", some 0, .stateResp raw⟩ :: rest) :
    (raw.partitions = none →
       (init_system_partion_type fuel st).1 = .ok ()
     ∧ (init_system_partion_type fuel st).2.client.control_url = some CONTROL_URL_PANEL_MODE
     ∧ (init_system_partion_type fuel st).2.client.state_arm = some PANEL_ARM
     ∧ (init_system_partion_type fuel st).2.client.state_disarm = some PANEL_DISARM
     ∧ (init_system_partion_type fuel st).2.client.state_partial_arm = some PANEL_PARTIAL_ARM)
  ∧ (∀ (p : PartRec) (l : List PartRec), raw.partitions = some (p :: l) →
       (init_system_partion_type fuel st).1 = .ok ()
     ∧ (init_system_partion_type fuel st).2.client.control_url = some CONTROL_URL
     ∧ (init_system_partion_type fuel st).2.client.state_arm = some PARTITION_ARM
     ∧ (init_system_partion_type fuel st).2.client.state_disarm = some PARTITION_DISARM
     ∧ (init_system_partion_type fuel st).2.client.state_partial_arm = some PARTITION_PARTIAL_ARM) := by
  have hg := get_stateF_ok (login fuel none) st tok raw rest htok hscript
  constructor
  · intro hnone
    refine ⟨?_, ?_, ?_, ?_, ?_⟩ <;>
      simp [init_system_partion_type, init_system_partion_typeF, hg, Alarm.partitions,
        hnone, PartObj.panel_mode]
  · intro p l hsome
    obtain ⟨kv, d2, hd⟩ := List.exists_cons_of_ne_nil (dictOfRecs_cons_ne_nil p l)
    obtain ⟨r, hr⟩ := dictOfRecs_all_multi (p :: l) kv (hd ▸ List.mem_cons_self kv d2)
    refine ⟨?_, ?_, ?_, ?_, ?_⟩ <;>
      simp [init_system_partion_type, init_system_partion_typeF, hg, Alarm.partitions,
        hsome, hd, hr, PartObj.panel_mode, multiPartitionPanelMode]

/-- **C3** witness: both dialect resolutions at concrete inputs. -/
theorem c3_dialect_detection_witness :
    (init_system_partion_type 3
        ⟨panelClient, [.ok ⟨200, "", some 0, .stateResp ⟨none, 0⟩⟩], [], 0⟩).2.client.control_url
      = some CONTROL_URL_PANEL_MODE
  ∧ (init_system_partion_type 3
        ⟨panelClient, [.ok ⟨200, "", some 0, .stateResp ⟨some [⟨1⟩], 0⟩⟩], [], 0⟩).2.client.control_url
      = some CONTROL_URL :=
  ⟨((c3_dialect_detection 3 _ "tok" ⟨none, 0⟩ [] rfl rfl).1 rfl).2.1,
   ((c3_dialect_detection 3 _ "tok" ⟨some [⟨1⟩], 0⟩ [] rfl rfl).2 ⟨1⟩ [] rfl).2.1⟩

/-- **C3** counterexample: a state response with a present but *empty*
`partitions` list makes `list(alarm.partitions.values())[0]` raise
`IndexError`; the dialect does not resolve to `PartitionMode` (the control
endpoint stays unset). -/
theorem c3_empty_partitions_counterexample :
    (init_system_partion_type 3
        ⟨{ initClient "u" "p" "1234" "en" with
             access_token := some "tok", session_id := some "sess", site_id := some 5 },
         [.ok ⟨200, "", some 0, .stateResp ⟨some [], 0⟩⟩], [], 0⟩).1 = .error .indexError
  ∧ (init_system_partion_type 3
        ⟨{ initClient "u" "p" "1234" "en" with
             access_token := some "tok", session_id := some "sess", site_id := some 5 },
         [.ok ⟨200, "", some 0, .stateResp ⟨some [], 0⟩⟩], [], 0⟩).2.client.control_url = none := by
  refine ⟨?_, ?_⟩ <;>
    simp [init_system_partion_type, init_system_partion_typeF, get_stateF, site_postF,
      site_post_loop, authenticated_post, netPost, initClient, resultIs, resultNonzero,
      RETRYABLE_RESULT_CODE, NUM_RETRIES, Alarm.partitions, dictOfRecs]

/-! ## Claim C1 -/

/-- **C1**: in `_site_post`, an attempt answered with the retryable result
code 72 makes the next attempt run with `fromControlPanel = False` (first
conjunct: one loop unfolding — the failed attempt is logged with its flag and
the loop continues with the flag dropped to `False`, the session untouched);
and when all `NUM_RETRIES = 3` attempts are answered with code 72 the call
raises `OperationError("Failed to perform operation after retries")` — never
the `RetryableOperationError` itself — with the three attempts carrying flags
`True`, `False`, `False` (second conjunct). -/
theorem c1_retryable_flip_and_exhaustion :
    (∀ (login_ : M Unit) (su : String) (b : BaseBody) (lf i : Nat) (fcp : Bool)
       (st : St) (j : HttpResponse) (rest : List NetResult) (tok : String),
       st.client.access_token = some tok →
       st.script = .ok j :: rest →
       j.status ≠ 401 →
       resultIs j RETRYABLE_RESULT_CODE = true →
       i + 1 ≠ NUM_RETRIES →
       site_post_loop login_ su b (lf + 1) i fcp st =
         site_post_loop login_ su b lf (i + 1) false
           { st with script := rest
                     log := .post su (some tok)
                              (.siteBody b fcp st.client.session_id) :: st.log })
  ∧ (∀ (fuel : Nat) (url : String) (b : BaseBody) (st : St)
       (j1 j2 j3 : HttpResponse) (rest : List NetResult) (tok : String),
       st.client.access_token = some tok →
       st.script = .ok j1 :: .ok j2 :: .ok j3 :: rest →
       j1.status ≠ 401 → j2.status ≠ 401 → j3.status ≠ 401 →
       resultIs j1 RETRYABLE_RESULT_CODE = true →
       resultIs j2 RETRYABLE_RESULT_CODE = true →
       resultIs j3 RETRYABLE_RESULT_CODE = true →
       (site_post fuel url b st).1 =
           .error (.operation "Failed to perform operation after retries")
     ∧ (site_post fuel url b st).2.log =
         .post (pctS url (pyOptIntStr st.client.site_id)) (some tok)
             (.siteBody b false st.client.session_id)
           :: .post (pctS url (pyOptIntStr st.client.site_id)) (some tok)
             (.siteBody b false st.client.session_id)
           :: .post (pctS url (pyOptIntStr st.client.site_id)) (some tok)
             (.siteBody b true st.client.session_id)
           :: st.log) := by
  constructor
  · intro login_ su b lf i fcp st j rest tok htok hscript hst hres hi
    simp [site_post_loop, authenticated_post, netPost, htok, hscript, hst, hres, hi]
  · intro fuel url b st j1 j2 j3 rest tok htok hscript h1 h2 h3 hr1 hr2 hr3
    refine ⟨?_, ?_⟩ <;>
      simp [site_post, site_postF, site_post_loop, authenticated_post, netPost,
        NUM_RETRIES, htok, hscript, h1, h2, h3, hr1, hr2, hr3]

/-- **C1** witness: three retryable-busy answers at a concrete input. -/
theorem c1_retryable_witness :
    (site_post 3 EVENTS_URL .emptyB
        ⟨panelClient, [.ok ⟨200, "", some 72, .nullResp⟩, .ok ⟨200, "", some 72, .nullResp⟩,
                       .ok ⟨200, "", some 72, .nullResp⟩], [], 0⟩).1 =
      .error (.operation "Failed to perform operation after retries") :=
  (c1_retryable_flip_and_exhaustion.2 3 EVENTS_URL .emptyB
      ⟨panelClient, [.ok ⟨200, "", some 72, .nullResp⟩, .ok ⟨200, "", some 72, .nullResp⟩,
                     .ok ⟨200, "", some 72, .nullResp⟩], [], 0⟩
      ⟨200, "", some 72, .nullResp⟩ ⟨200, "", some 72, .nullResp⟩ ⟨200, "", some 72, .nullResp⟩
      [] "tok" rfl rfl (by decide) (by decide) (by decide) rfl rfl rfl).1

/-! ## Script monotonicity: every computation only consumes queued responses,
so the remaining script is always a suffix of the one it started from. -/

def ScriptMono {α : Type} (x : M α) : Prop :=
  ∀ st : St, ((x st).2).script.IsSuffix st.script

theorem scriptMono_pure {α : Type} (a : α) : ScriptMono (M.pure a) := fun _ => List.suffix_refl _

theorem scriptMono_pure2 {α : Type} (a : α) : ScriptMono (Pure.pure a : M α) := fun _ => List.suffix_refl _

theorem scriptMono_throw {α : Type} (e : RiscoError) : ScriptMono (M.throw e : M α) :=
  fun _ => List.suffix_refl _

theorem scriptMono_getClient : ScriptMono M.getClient := fun _ => List.suffix_refl _

theorem scriptMono_modifyClient (f : ClientState → ClientState) : ScriptMono (M.modifyClient f) :=
  fun _ => List.suffix_refl _

theorem scriptMono_logEvent (e : NetEvent) : ScriptMono (M.logEvent e) :=
  fun _ => List.suffix_refl _

theorem scriptMono_createTransport : ScriptMono M.createTransport := fun _ => List.suffix_refl _

theorem scriptMono_nextNet : ScriptMono M.nextNet := by
  intro st
  unfold M.nextNet
  cases h : st.script with
  | nil => simp [h]
  | cons r rest => simp [h]

theorem scriptMono_ofExcept {α : Type} (e : Except RiscoError α) : ScriptMono (M.ofExcept e) := by
  cases e with
  | ok a => exact scriptMono_pure a
  | error e => exact scriptMono_throw e

theorem scriptMono_bind {α β : Type} {x : M α} {f : α → M β}
    (hx : ScriptMono x) (hf : ∀ a, ScriptMono (f a)) : ScriptMono (x >>= f) := by
  intro st
  show ((M.bind x f st).2).script.IsSuffix st.script
  unfold M.bind
  cases hxs : x st with
  | mk r st2 =>
    have hsfx : st2.script.IsSuffix st.script := by
      have := hx st
      rw [hxs] at this
      exact this
    cases r with
    | ok a => exact ((hf a st2).trans hsfx)
    | error e => exact hsfx

theorem scriptMono_ite {α : Type} {c : Prop} [Decidable c] {x y : M α}
    (hx : ScriptMono x) (hy : ScriptMono y) : ScriptMono (if c then x else y) := by
  by_cases h : c <;> simp [h, hx, hy]

theorem scriptMono_tryCatch {α : Type} {x : M α} {h : RiscoError → Option (M α)}
    (hx : ScriptMono x) (hh : ∀ e k, h e = some k → ScriptMono k) :
    ScriptMono (M.tryCatch x h) := by
  intro st
  unfold M.tryCatch
  cases hxs : x st with
  | mk r st2 =>
    have hsfx : st2.script.IsSuffix st.script := by
      have := hx st
      rw [hxs] at this
      exact this
    cases r with
    | ok a => exact hsfx
    | error e =>
      cases hhe : h e with
      | none => simp only [hhe]; exact hsfx
      | some k => simp only [hhe]; exact ((hh e k hhe st2).trans hsfx)

theorem scriptMono_netPost (url : String) (bearer : Option String) (b : BodyV) :
    ScriptMono (netPost url bearer b) :=
  scriptMono_bind (scriptMono_logEvent _) fun _ => scriptMono_nextNet

theorem scriptMono_getAttr {α : Type} (o : Option α) : ScriptMono (getAttr o) := by
  cases o with
  | none => exact scriptMono_throw _
  | some a => exact scriptMono_pure a

theorem scriptMono_authenticated_post (url : String) (b : BodyV) :
    ScriptMono (authenticated_post url b) := by
  unfold authenticated_post
  refine scriptMono_bind scriptMono_getClient fun c => ?_
  cases c.access_token with
  | none => exact scriptMono_throw _
  | some tok =>
    refine scriptMono_bind (scriptMono_netPost _ _ _) fun nr => ?_
    cases nr with
    | connFail => exact scriptMono_throw _
    | ok j =>
      refine scriptMono_ite (scriptMono_throw _) ?_
      refine scriptMono_ite (scriptMono_throw _) ?_
      exact scriptMono_ite (scriptMono_throw _) (scriptMono_pure _)

theorem scriptMono_login_user_pass : ScriptMono login_user_pass := by
  unfold login_user_pass
  refine scriptMono_bind scriptMono_getClient fun c => ?_
  refine scriptMono_bind (scriptMono_netPost _ _ _) fun nr => ?_
  cases nr with
  | connFail => exact scriptMono_throw _
  | ok j =>
    refine scriptMono_ite (scriptMono_throw _) ?_
    cases j.response with
    | loginResp tok =>
      refine scriptMono_bind (scriptMono_modifyClient _) fun _ => ?_
      refine scriptMono_bind scriptMono_getClient fun c3 => ?_
      exact scriptMono_ite (scriptMono_pure _) (scriptMono_throw _)
    | sitesResp s => exact scriptMono_throw _
    | pinResp s => exact scriptMono_throw _
    | stateResp r => exact scriptMono_throw _
    | rawResp r => exact scriptMono_throw _
    | eventsResp l => exact scriptMono_throw _
    | nullResp => exact scriptMono_throw _

theorem scriptMono_login_site : ScriptMono login_site := by
  unfold login_site
  refine scriptMono_bind (scriptMono_authenticated_post _ _) fun resp => ?_
  cases resp with
  | sitesResp s =>
    cases s with
    | nil => exact scriptMono_throw _
    | cons s0 t => exact scriptMono_modifyClient _
  | loginResp tok => exact scriptMono_throw _
  | pinResp s => exact scriptMono_throw _
  | stateResp r => exact scriptMono_throw _
  | rawResp r => exact scriptMono_throw _
  | eventsResp l => exact scriptMono_throw _
  | nullResp => exact scriptMono_throw _

theorem scriptMono_login_session : ScriptMono login_session := by
  unfold login_session
  refine scriptMono_bind scriptMono_getClient fun c => ?_
  refine scriptMono_bind (scriptMono_authenticated_post _ _) fun resp => ?_
  cases resp with
  | pinResp s => exact scriptMono_modifyClient _
  | loginResp tok => exact scriptMono_throw _
  | sitesResp s => exact scriptMono_throw _
  | stateResp r => exact scriptMono_throw _
  | rawResp r => exact scriptMono_throw _
  | eventsResp l => exact scriptMono_throw _
  | nullResp => exact scriptMono_throw _

theorem scriptMono_close : ScriptMono Pyrisco.close := by
  unfold Pyrisco.close
  refine scriptMono_bind (scriptMono_modifyClient _) fun _ => ?_
  refine scriptMono_bind scriptMono_getClient fun c => ?_
  refine scriptMono_ite ?_ (scriptMono_pure _)
  cases c.session with
  | none => exact scriptMono_pure _
  | some t => exact scriptMono_bind (scriptMono_logEvent _) fun _ => scriptMono_modifyClient _

theorem scriptMono_init_session (arg : Option Transport) : ScriptMono (init_session arg) := by
  unfold init_session
  refine scriptMono_bind scriptMono_close fun _ => ?_
  refine scriptMono_bind scriptMono_getClient fun c => ?_
  cases c.session with
  | some s => exact scriptMono_pure _
  | none =>
    cases arg with
    | none => exact scriptMono_bind scriptMono_createTransport fun _ => scriptMono_modifyClient _
    | some s => exact scriptMono_modifyClient _

theorem scriptMono_site_post_loop {login_ : M Unit} (hl : ScriptMono login_)
    (su : String) (b : BaseBody) :
    ∀ (lf i : Nat) (fcp : Bool), ScriptMono (site_post_loop login_ su b lf i fcp) := by
  intro lf
  induction lf with
  | zero => intro i fcp; rw [site_post_loop]; exact scriptMono_throw _
  | succ n ih =>
    intro i fcp
    rw [site_post_loop]
    refine scriptMono_tryCatch ?_ ?_
    · refine scriptMono_bind scriptMono_getClient fun c => ?_
      exact scriptMono_bind (scriptMono_authenticated_post _ _) fun resp => scriptMono_pure _
    · intro e k hk
      cases e with
      | unauthorized m =>
        simp only [Option.some.injEq] at hk
        subst hk
        refine scriptMono_ite (scriptMono_throw _) ?_
        refine scriptMono_bind scriptMono_close fun _ => ?_
        exact scriptMono_bind hl fun _ => ih _ _
      | retryableOperation m =>
        simp only [Option.some.injEq] at hk
        subst hk
        exact scriptMono_ite (scriptMono_throw _) (ih _ _)
      | cannotConnect => simp at hk
      | operation m => simp at hk
      | clientConnectorError => simp at hk
      | typeError => simp at hk
      | keyError s => simp at hk
      | valueError => simp at hk
      | nameError => simp at hk
      | indexError => simp at hk
      | attributeError => simp at hk
      | scriptEnd => simp at hk
      | outOfFuel => simp at hk

theorem scriptMono_site_postF {login_ : M Unit} (hl : ScriptMono login_)
    (url : String) (b : BaseBody) : ScriptMono (site_postF login_ url b) := by
  unfold site_postF
  exact scriptMono_bind scriptMono_getClient fun c => scriptMono_site_post_loop hl _ _ _ _ _

theorem scriptMono_get_stateF {login_ : M Unit} (hl : ScriptMono login_) :
    ScriptMono (get_stateF login_) := by
  unfold get_stateF
  refine scriptMono_bind (scriptMono_site_postF hl _ _) fun ra => ?_
  cases hra : ra.1 with
  | stateResp raw => exact scriptMono_pure _
  | loginResp tok => exact scriptMono_throw _
  | sitesResp s => exact scriptMono_throw _
  | pinResp s => exact scriptMono_throw _
  | rawResp r => exact scriptMono_throw _
  | eventsResp l => exact scriptMono_throw _
  | nullResp => exact scriptMono_throw _

theorem scriptMono_init_system_partion_typeF {login_ : M Unit} (hl : ScriptMono login_) :
    ScriptMono (init_system_partion_typeF login_) := by
  unfold init_system_partion_typeF
  refine scriptMono_bind (scriptMono_get_stateF hl) fun alarm => ?_
  cases hps : (Alarm.partitions alarm).map Prod.snd with
  | nil => exact scriptMono_throw _
  | cons first t => exact scriptMono_ite (scriptMono_modifyClient _) (scriptMono_modifyClient _)

theorem scriptMono_login : ∀ (fuel : Nat) (arg : Option Transport), ScriptMono (login fuel arg) := by
  intro fuel
  induction fuel with
  | zero =>
    intro arg
    rw [login.eq_def]
    refine scriptMono_bind scriptMono_getClient fun c => ?_
    exact scriptMono_ite (scriptMono_pure _) (scriptMono_throw _)
  | succ n ih =>
    intro arg
    rw [login.eq_def]
    refine scriptMono_bind scriptMono_getClient fun c => ?_
    refine scriptMono_ite (scriptMono_pure _) ?_
    refine scriptMono_bind (scriptMono_init_session _) fun _ => ?_
    refine scriptMono_bind scriptMono_login_user_pass fun _ => ?_
    refine scriptMono_bind scriptMono_login_site fun _ => ?_
    refine scriptMono_bind scriptMono_login_session fun _ => ?_
    exact scriptMono_init_system_partion_typeF (ih none)

/-! ## Run-shape lemmas for the dispatcher. -/

/-- `close` never raises and never consumes script entries. -/
theorem close_spec (st : St) : ∃ st2, Pyrisco.close st = (.ok (), st2) ∧ st2.script = st.script := by
  cases h1 : st.client.created_session <;> cases h2 : st.client.session <;>
    simp [Pyrisco.close, h1, h2]

/-- A successful `_authenticated_post` logged exactly its own request and
consumed one script entry. -/
theorem authenticated_post_ok_log (url : String) (bdy : BodyV) (st : St) (p : Payload)
    (st2 : St) (h : authenticated_post url bdy st = (.ok p, st2)) :
    ∃ tok, st.client.access_token = some tok
      ∧ st2.log = .post url (some tok) bdy :: st.log
      ∧ st2.client = st.client := by
  unfold authenticated_post at h
  cases hca : st.client.access_token with
  | none => simp [hca] at h
  | some tok =>
    cases hsc : st.script with
    | nil => simp [netPost, hca, hsc] at h
    | cons r rest =>
      cases r with
      | connFail => simp [netPost, hca, hsc] at h
      | ok j =>
        by_cases h401 : j.status = 401
        · simp [netPost, hca, hsc, h401] at h
        · by_cases h72 : resultIs j RETRYABLE_RESULT_CODE = true
          · simp [netPost, hca, hsc, h401, h72] at h
          · by_cases hnz : resultNonzero j = true
            · simp [netPost, hca, hsc, h401, h72, hnz] at h
            · simp [netPost, hca, hsc, h401, h72, hnz] at h
              exact ⟨tok, rfl, by rw [← h.2], by rw [← h.2]⟩

/-- An `_authenticated_post` that raised `RetryableOperationError` consumed a
non-401 response carrying result code 72 from the head of the script. -/
theorem authenticated_post_retryable (url : String) (bdy : BodyV) (st : St) (m : String)
    (st2 : St) (h : authenticated_post url bdy st = (.error (.retryableOperation m), st2)) :
    ∃ j rest, st.script = .ok j :: rest
      ∧ (j.status == 401) = false
      ∧ resultIs j RETRYABLE_RESULT_CODE = true := by
  unfold authenticated_post at h
  cases hca : st.client.access_token with
  | none => simp [hca] at h
  | some tok =>
    cases hsc : st.script with
    | nil => simp [netPost, hca, hsc] at h
    | cons r rest =>
      cases r with
      | connFail => simp [netPost, hca, hsc] at h
      | ok j =>
        by_cases h401 : j.status = 401
        · simp [netPost, hca, hsc, h401] at h
        · by_cases h72 : resultIs j RETRYABLE_RESULT_CODE = true
          · exact ⟨j, rest, rfl, by simp [h401], h72⟩
          · by_cases hnz : resultNonzero j = true
            · simp [netPost, hca, hsc, h401, h72, hnz] at h
            · simp [netPost, hca, hsc, h401, h72, hnz] at h

/-- Successful `_site_post` loop runs return `not fromControlPanel` of the
final, successful attempt, which is the newest entry of the log. -/
theorem site_post_loop_ok_shape {login_ : M Unit} (su : String) (b : BaseBody) :
    ∀ (lf i : Nat) (fcp : Bool) (st : St) (v : Payload) (b2 : Bool) (st2 : St),
      site_post_loop login_ su b lf i fcp st = (.ok (v, b2), st2) →
      ∃ (fcp2 : Bool) (bearer : Option String) (stok : Option String) (rest : List NetEvent),
        st2.log = .post su bearer (.siteBody b fcp2 stok) :: rest ∧ b2 = (!fcp2) := by
  intro lf
  induction lf with
  | zero =>
    intro i fcp st v b2 st2 h
    rw [site_post_loop] at h
    simp at h
  | succ n ih =>
    intro i fcp st v b2 st2 h
    rw [site_post_loop] at h
    simp only [tryCatch_apply, bind_apply, getClient_apply, mpure_apply] at h
    cases hap : authenticated_post su (.siteBody b fcp st.client.session_id) st with
    | mk r st3 =>
      rw [hap] at h
      cases r with
      | ok p =>
        simp only [] at h
        obtain ⟨⟨hv, hb⟩, hst⟩ : (p = v ∧ (!fcp) = b2) ∧ st3 = st2 := by
          constructor
          · constructor
            · exact congrArg (fun z =>
                match z.1 with | .ok q => q.1 | .error _ => p) h
            · exact congrArg (fun z =>
                match z.1 with | .ok q => q.2 | .error _ => (!fcp)) h
          · exact congrArg Prod.snd h
        obtain ⟨tok, htok, hlog, _⟩ := authenticated_post_ok_log _ _ _ _ _ hap
        exact ⟨fcp, some tok, st.client.session_id, st.log, by rw [← hst, hlog], hb.symm⟩
      | error e =>
        cases e with
        | unauthorized m =>
          simp only [] at h
          by_cases hi : (i + 1 == NUM_RETRIES) = true
          · rw [if_pos hi] at h
            simp at h
          · rw [if_neg hi] at h
            simp only [bind_apply] at h
            obtain ⟨st4, hcl, _⟩ := close_spec st3
            rw [hcl] at h
            dsimp only at h
            cases hlr : login_ st4 with
            | mk rl st5 =>
              rw [hlr] at h
              cases rl with
              | ok u => exact ih _ _ _ _ _ _ h
              | error e2 => simp at h
        | retryableOperation m =>
          simp only [] at h
          by_cases hi : (i + 1 == NUM_RETRIES) = true
          · rw [if_pos hi] at h
            simp at h
          · rw [if_neg hi] at h
            exact ih _ _ _ _ _ _ h
        | cannotConnect => simp at h
        | operation m2 => simp at h
        | clientConnectorError => simp at h
        | typeError => simp at h
        | keyError s => simp at h
        | valueError => simp at h
        | nameError => simp at h
        | indexError => simp at h
        | attributeError => simp at h
        | scriptEnd => simp at h
        | outOfFuel => simp at h

/-- No script entry is a retryable-busy answer (non-401 status with result
code 72). -/
def NoBusy (l : List NetResult) : Prop :=
  ∀ j : HttpResponse, NetResult.ok j ∈ l → j.status = 401 ∨ resultIs j RETRYABLE_RESULT_CODE = false

/-- If no queued answer is retryable-busy, a successful loop run keeps the
`fromControlPanel` flag it started with, so the returned flag is its
negation. -/
theorem site_post_loop_ok_no_busy {login_ : M Unit} (hl : ScriptMono login_)
    (su : String) (b : BaseBody) :
    ∀ (lf i : Nat) (fcp : Bool) (st : St) (v : Payload) (b2 : Bool) (st2 : St),
      NoBusy st.script →
      site_post_loop login_ su b lf i fcp st = (.ok (v, b2), st2) →
      b2 = (!fcp) := by
  intro lf
  induction lf with
  | zero =>
    intro i fcp st v b2 st2 hnb h
    rw [site_post_loop] at h
    simp at h
  | succ n ih =>
    intro i fcp st v b2 st2 hnb h
    rw [site_post_loop] at h
    simp only [tryCatch_apply, bind_apply, getClient_apply, mpure_apply] at h
    cases hap : authenticated_post su (.siteBody b fcp st.client.session_id) st with
    | mk r st3 =>
      rw [hap] at h
      cases r with
      | ok p =>
        have hb : (!fcp) = b2 :=
          congrArg (fun z => match z.1 with | .ok q => q.2 | .error _ => (!fcp)) h
        exact hb.symm
      | error e =>
        cases e with
        | unauthorized m =>
          dsimp only at h
          split at h
          · simp at h
          · simp only [bind_apply] at h
            obtain ⟨st4, hcl, hsc4⟩ := close_spec st3
            rw [hcl] at h
            dsimp only at h
            cases hlr : login_ st4 with
            | mk rl st5 =>
              rw [hlr] at h
              cases rl with
              | ok u =>
                have hsfx3 : st3.script.IsSuffix st.script := by
                  have hm := scriptMono_authenticated_post su
                    (.siteBody b fcp st.client.session_id) st
                  rw [hap] at hm
                  exact hm
                have hsfx5 : st5.script.IsSuffix st4.script := by
                  have hm := hl st4
                  rw [hlr] at hm
                  exact hm
                have hnb5 : NoBusy st5.script := by
                  intro j hj
                  exact hnb j (hsfx3.subset (hsc4 ▸ hsfx5.subset hj))
                exact ih _ _ _ _ _ _ hnb5 h
              | error e2 => simp at h
        | retryableOperation m =>
          obtain ⟨j, rest, hsc, h401, h72⟩ := authenticated_post_retryable _ _ _ _ _ hap
          rcases hnb j (by rw [hsc]; exact List.mem_cons_self _ _) with hc | hc
          · rw [hc] at h401
            simp at h401
          · rw [hc] at h72
            simp at h72
        | cannotConnect => simp at h
        | operation m2 => simp at h
        | clientConnectorError => simp at h
        | typeError => simp at h
        | keyError s => simp at h
        | valueError => simp at h
        | nameError => simp at h
        | indexError => simp at h
        | attributeError => simp at h
        | scriptEnd => simp at h
        | outOfFuel => simp at h

/-! ## Claim C10 -/

/-- **C10**: the Boolean returned with a successful `_site_post` payload — the
`assumed_control_panel_state` stored in the resulting `Alarm` — is the
negation of the `fromControlPanel` flag the successful attempt was sent with
(first conjunct); it is `False` whenever no retryable-busy answer was queued
(second conjunct), in particular on a first-attempt success, which returns
`False` (third conjunct); after a retryable-busy answer the retried attempt
succeeds with `True` (fourth conjunct); and `Alarm` reports exactly the
stored flag (fifth conjunct). -/
theorem c10_assumed_control_panel_state :
    (∀ (fuel : Nat) (url : String) (b : BaseBody) (st : St) (v : Payload)
       (b2 : Bool) (st2 : St),
       site_post fuel url b st = (.ok (v, b2), st2) →
       ∃ (fcp2 : Bool) (bearer : Option String) (stok : Option String) (rest : List NetEvent),
         st2.log = .post (pctS url (pyOptIntStr st.client.site_id)) bearer
             (.siteBody b fcp2 stok) :: rest
         ∧ b2 = (!fcp2))
  ∧ (∀ (fuel : Nat) (url : String) (b : BaseBody) (st : St) (v : Payload)
       (b2 : Bool) (st2 : St),
       NoBusy st.script →
       site_post fuel url b st = (.ok (v, b2), st2) →
       b2 = false)
  ∧ (∀ (fuel : Nat) (url : String) (b : BaseBody) (st : St) (j : HttpResponse)
       (rest : List NetResult) (tok : String),
       st.client.access_token = some tok →
       st.script = .ok j :: rest →
       j.status ≠ 401 →
       resultIs j RETRYABLE_RESULT_CODE = false →
       resultNonzero j = false →
       site_post fuel url b st =
         (.ok (j.response, false),
          { st with script := rest
                    log := .post (pctS url (pyOptIntStr st.client.site_id)) (some tok)
                             (.siteBody b true st.client.session_id) :: st.log }))
  ∧ (∀ (fuel : Nat) (url : String) (b : BaseBody) (st : St) (j1 j2 : HttpResponse)
       (rest : List NetResult) (tok : String),
       st.client.access_token = some tok →
       st.script = .ok j1 :: .ok j2 :: rest →
       j1.status ≠ 401 → resultIs j1 RETRYABLE_RESULT_CODE = true →
       j2.status ≠ 401 → resultIs j2 RETRYABLE_RESULT_CODE = false →
       resultNonzero j2 = false →
       (site_post fuel url b st).1 = .ok (j2.response, true))
  ∧ (∀ (raw : StateRaw) (b2 : Bool),
       (Alarm.mk raw b2).assumed_control_panel_state = b2) := by
  refine ⟨?_, ?_, ?_, ?_, fun raw b2 => rfl⟩
  · intro fuel url b st v b2 st2 h
    exact site_post_loop_ok_shape _ _ _ _ _ _ _ _ _ h
  · intro fuel url b st v b2 st2 hnb h
    exact site_post_loop_ok_no_busy (scriptMono_login fuel none) _ _ _ _ _ _ _ _ _ hnb h
  · intro fuel url b st j rest tok htok hscript h401 h72 hnz
    simp [site_post, site_postF, site_post_loop, authenticated_post, netPost,
      NUM_RETRIES, htok, hscript, h401, h72, hnz]
  · intro fuel url b st j1 j2 rest tok htok hscript h1 hr1 h2 hr2 hnz2
    simp [site_post, site_postF, site_post_loop, authenticated_post, netPost,
      NUM_RETRIES, htok, hscript, h1, hr1, h2, hr2, hnz2]

/-- **C10** witness: first-attempt success returns `False`; success after one
retryable-busy answer returns `True`. -/
theorem c10_assumed_control_panel_state_witness :
    (site_post 3 STATE_URL .emptyB
        ⟨panelClient, [.ok ⟨200, "", some 0, .stateResp ⟨none, 0⟩⟩], [], 0⟩).1 =
      .ok (.stateResp ⟨none, 0⟩, false)
  ∧ (site_post 3 STATE_URL .emptyB
        ⟨panelClient, [.ok ⟨200, "", some 72, .nullResp⟩,
                       .ok ⟨200, "", some 0, .stateResp ⟨none, 0⟩⟩], [], 0⟩).1 =
      .ok (.stateResp ⟨none, 0⟩, true) :=
  ⟨by rw [c10_assumed_control_panel_state.2.2.1 3 STATE_URL .emptyB
      ⟨panelClient, [.ok ⟨200, "", some 0, .stateResp ⟨none, 0⟩⟩], [], 0⟩
      ⟨200, "", some 0, .stateResp ⟨none, 0⟩⟩ [] "tok" rfl rfl (by decide) rfl rfl],
   c10_assumed_control_panel_state.2.2.2.1 3 STATE_URL .emptyB
      ⟨panelClient, [.ok ⟨200, "", some 72, .nullResp⟩,
                     .ok ⟨200, "", some 0, .stateResp ⟨none, 0⟩⟩], [], 0⟩
      ⟨200, "", some 72, .nullResp⟩ ⟨200, "", some 0, .stateResp ⟨none, 0⟩⟩ [] "tok"
      rfl rfl (by decide) rfl (by decide) rfl rfl⟩

/-! ## Claim C2 -/

/-- **C2**: a 401 answer to a site-scoped attempt triggers `close()` and a
full re-login, and the retry is sent with the session token freshly obtained
by that re-login, up to `NUM_RETRIES = 3` attempts; when every attempt is
answered 401, the `UnauthorizedError` (of the final attempt) is re-raised.
The log equality exhibits the whole protocol: attempt 1 with the old session
token, a complete login handshake (credential post, site discovery, PIN
exchange, dialect-detection state query), attempt 2 with the first fresh
token, a second handshake, and attempt 3 with the second fresh token; the
client keeps the last fresh session token.  (The transport handle is borrowed
— `session` present, `created_session` false — so no handle events occur;
each nested state query answers `partitions = null`.) -/
theorem c2_unauthorized_relogin_retry (f : Nat) (url : String) (b : BaseBody) (st : St)
    (tok0 tok1 tok2 : String) (tr : Transport) (e1 e2 e3 : String)
    (sid1 sid2 : Int) (nm1 nm2 uu1 uu2 : String) (sess1 sess2 : String) (ss1 ss2 : Int)
    (rest : List NetResult)
    (htok0 : st.client.access_token = some tok0)
    (hsess : st.client.session = some tr)
    (hcs : st.client.created_session = false)
    (htok1 : tok1 ≠ "") (htok2 : tok2 ≠ "")
    (hscript : st.script =
      .ok ⟨401, e1, none, .nullResp⟩
        :: .ok ⟨200, "", none, .loginResp (some tok1)⟩
        :: .ok ⟨200, "", some 0, .sitesResp [⟨sid1, nm1, uu1⟩]⟩
        :: .ok ⟨200, "", some 0, .pinResp sess1⟩
        :: .ok ⟨200, "", some 0, .stateResp ⟨none, ss1⟩⟩
        :: .ok ⟨401, e2, none, .nullResp⟩
        :: .ok ⟨200, "", none, .loginResp (some tok2)⟩
        :: .ok ⟨200, "", some 0, .sitesResp [⟨sid2, nm2, uu2⟩]⟩
        :: .ok ⟨200, "", some 0, .pinResp sess2⟩
        :: .ok ⟨200, "", some 0, .stateResp ⟨none, ss2⟩⟩
        :: .ok ⟨401, e3, none, .nullResp⟩
        :: rest) :
    (site_post (f + 1) url b st).1 = .error (.unauthorized e3)
  ∧ (site_post (f + 1) url b st).2.client.session_id = some sess2
  ∧ (site_post (f + 1) url b st).2.log =
      .post (pctS url (pyOptIntStr st.client.site_id)) (some tok2)
          (.siteBody b true (some sess2))
        :: .post (pctS STATE_URL (pyOptIntStr (some sid2))) (some tok2)
          (.siteBody .emptyB true (some sess2))
        :: .post (pctS PIN_URL (pyOptIntStr (some sid2))) (some tok2)
          (.pinBody st.client.language st.client.pin)
        :: .post SITE_URL (some tok2) (.plainBody .emptyB)
        :: .post LOGIN_URL none (.loginBody st.client.username st.client.password)
        :: .post (pctS url (pyOptIntStr st.client.site_id)) (some tok1)
          (.siteBody b true (some sess1))
        :: .post (pctS STATE_URL (pyOptIntStr (some sid1))) (some tok1)
          (.siteBody .emptyB true (some sess1))
        :: .post (pctS PIN_URL (pyOptIntStr (some sid1))) (some tok1)
          (.pinBody st.client.language st.client.pin)
        :: .post SITE_URL (some tok1) (.plainBody .emptyB)
        :: .post LOGIN_URL none (.loginBody st.client.username st.client.password)
        :: .post (pctS url (pyOptIntStr st.client.site_id)) (some tok0)
          (.siteBody b true st.client.session_id)
        :: st.log := by
  refine ⟨?_, ?_, ?_⟩ <;>
    simp [site_post, site_postF, site_post_loop, login, init_session, Pyrisco.close,
      login_user_pass, login_site, login_session, init_system_partion_typeF, get_stateF,
      authenticated_post, netPost, NUM_RETRIES, htok0, hsess, hcs, htok1, htok2, hscript,
      pyTruthyOpt, resultIs, resultNonzero, RETRYABLE_RESULT_CODE, Alarm.partitions,
      PartObj.panel_mode]

/-- A client with a borrowed transport handle, mid-session, used by the C2
witness. -/
def borrowedSt : St :=
  ⟨{ initClient "u" "p" "1234" "en" with
       access_token := some "tok0", session_id := some "s0", site_id := some 5,
       session := some ⟨9, .external⟩, created_session := false },
   [.ok ⟨401, "e1", none, .nullResp⟩,
    .ok ⟨200, "", none, .loginResp (some "tokA")⟩,
    .ok ⟨200, "", some 0, .sitesResp [⟨7, "nmA", "uuA"⟩]⟩,
    .ok ⟨200, "", some 0, .pinResp "sessA"⟩,
    .ok ⟨200, "", some 0, .stateResp ⟨none, 0⟩⟩,
    .ok ⟨401, "e2", none, .nullResp⟩,
    .ok ⟨200, "", none, .loginResp (some "tokB")⟩,
    .ok ⟨200, "", some 0, .sitesResp [⟨8, "nmB", "uuB"⟩]⟩,
    .ok ⟨200, "", some 0, .pinResp "sessB"⟩,
    .ok ⟨200, "", some 0, .stateResp ⟨none, 0⟩⟩,
    .ok ⟨401, "e3", none, .nullResp⟩], [], 0⟩

/-- **C2** witness: three 401 answers with two successful re-logins in
between re-raise the final `UnauthorizedError`, with the fresh session token
retained. -/
theorem c2_unauthorized_relogin_retry_witness :
    (site_post (0 + 1) EVENTS_URL .emptyB borrowedSt).1 = .error (.unauthorized "e3")
  ∧ (site_post (0 + 1) EVENTS_URL .emptyB borrowedSt).2.client.session_id = some "sessB" :=
  ⟨(c2_unauthorized_relogin_retry 0 EVENTS_URL .emptyB borrowedSt
      "tok0" "tokA" "tokB" ⟨9, .external⟩ "e1" "e2" "e3" 7 8 "nmA" "nmB" "uuA" "uuB"
      "sessA" "sessB" 0 0 [] rfl rfl rfl (by decide) (by decide) rfl).1,
   (c2_unauthorized_relogin_retry 0 EVENTS_URL .emptyB borrowedSt
      "tok0" "tokA" "tokB" ⟨9, .external⟩ "e1" "e2" "e3" 7 8 "nmA" "nmB" "uuA" "uuB"
      "sessA" "sessB" 0 0 [] rfl rfl rfl (by decide) (by decide) rfl).2.1⟩

/-! ## Retryable-error provenance: where a `RetryableOperationError` can come
from when it escapes. -/

/-- The computation never raises `RetryableOperationError`. -/
def NoRetryErr {α : Type} (x : M α) : Prop :=
  ∀ (st : St) (m : String), (x st).1 ≠ .error (.retryableOperation m)

/-- If the computation raises `RetryableOperationError`, the newest logged
request is the site-discovery or PIN-exchange post of a login flow — never a
site-scoped attempt. -/
def RetrySrc {α : Type} (x : M α) : Prop :=
  ∀ (st : St) (m : String), (x st).1 = .error (.retryableOperation m) →
    ∃ (u : String) (bearer : Option String) (bd : BodyV) (rest : List NetEvent),
      ((x st).2).log = .post u bearer bd :: rest
        ∧ (u = SITE_URL ∨ ∃ s, u = pctS PIN_URL s)

theorem retrySrc_of_noRetry {α : Type} {x : M α} (h : NoRetryErr x) : RetrySrc x :=
  fun st m hr => absurd hr (h st m)

theorem noRetry_pure {α : Type} (a : α) : NoRetryErr (M.pure a) := by
  intro st m
  simp [M.pure]

theorem noRetry_pure2 {α : Type} (a : α) : NoRetryErr (Pure.pure a : M α) := noRetry_pure a

theorem noRetry_throw {α : Type} (e : RiscoError) (he : ∀ m, e ≠ .retryableOperation m) :
    NoRetryErr (M.throw e : M α) := by
  intro st m
  simp [M.throw]
  intro hc
  exact absurd hc (he m)

theorem noRetry_getClient : NoRetryErr M.getClient := by
  intro st m
  simp [M.getClient]

theorem noRetry_modifyClient (f : ClientState → ClientState) : NoRetryErr (M.modifyClient f) := by
  intro st m
  simp [M.modifyClient]

theorem noRetry_logEvent (e : NetEvent) : NoRetryErr (M.logEvent e) := by
  intro st m
  simp [M.logEvent]

theorem noRetry_createTransport : NoRetryErr M.createTransport := by
  intro st m
  simp [M.createTransport]

theorem noRetry_nextNet : NoRetryErr M.nextNet := by
  intro st m
  unfold M.nextNet
  cases h : st.script with
  | nil => simp
  | cons r rest => simp

theorem noRetry_ofExcept {α : Type} (e : Except RiscoError α)
    (he : ∀ m, e ≠ .error (.retryableOperation m)) : NoRetryErr (M.ofExcept e) := by
  cases e with
  | ok a => exact noRetry_pure a
  | error e2 =>
    refine noRetry_throw e2 fun m hc => ?_
    exact absurd (by rw [hc]) (he m)

theorem noRetry_getAttr {α : Type} (o : Option α) : NoRetryErr (getAttr o) := by
  cases o with
  | none => exact noRetry_throw _ (by simp)
  | some a => exact noRetry_pure a

theorem noRetry_bind {α β : Type} {x : M α} {f : α → M β}
    (hx : NoRetryErr x) (hf : ∀ a, NoRetryErr (f a)) : NoRetryErr (x >>= f) := by
  intro st m
  show (M.bind x f st).1 ≠ _
  unfold M.bind
  cases hxs : x st with
  | mk r st2 =>
    cases r with
    | ok a => exact hf a st2 m
    | error e =>
      intro hc
      apply hx st m
      rw [hxs]
      simp only [Except.error.injEq] at hc ⊢
      exact hc

theorem noRetry_ite {α : Type} {c : Prop} [Decidable c] {x y : M α}
    (hx : NoRetryErr x) (hy : NoRetryErr y) : NoRetryErr (if c then x else y) := by
  by_cases h : c <;> simp [h, hx, hy]

theorem noRetry_netPost (url : String) (bearer : Option String) (b : BodyV) :
    NoRetryErr (netPost url bearer b) :=
  noRetry_bind (noRetry_logEvent _) fun _ => noRetry_nextNet

theorem noRetry_close : NoRetryErr Pyrisco.close := by
  intro st m
  obtain ⟨st2, h, _⟩ := close_spec st
  rw [h]
  simp

theorem noRetry_init_session (arg : Option Transport) : NoRetryErr (init_session arg) := by
  unfold init_session
  refine noRetry_bind noRetry_close fun _ => ?_
  refine noRetry_bind noRetry_getClient fun c => ?_
  cases c.session with
  | some s => exact noRetry_pure _
  | none =>
    cases arg with
    | none => exact noRetry_bind noRetry_createTransport fun _ => noRetry_modifyClient _
    | some s => exact noRetry_modifyClient _

theorem noRetry_login_user_pass : NoRetryErr login_user_pass := by
  unfold login_user_pass
  refine noRetry_bind noRetry_getClient fun c => ?_
  refine noRetry_bind (noRetry_netPost _ _ _) fun nr => ?_
  cases nr with
  | connFail => exact noRetry_throw _ (by simp)
  | ok j =>
    refine noRetry_ite (noRetry_throw _ (by simp)) ?_
    cases j.response with
    | loginResp tok =>
      refine noRetry_bind (noRetry_modifyClient _) fun _ => ?_
      refine noRetry_bind noRetry_getClient fun c3 => ?_
      exact noRetry_ite (noRetry_pure _) (noRetry_throw _ (by simp))
    | sitesResp s => exact noRetry_throw _ (by simp)
    | pinResp s => exact noRetry_throw _ (by simp)
    | stateResp r => exact noRetry_throw _ (by simp)
    | rawResp r => exact noRetry_throw _ (by simp)
    | eventsResp l => exact noRetry_throw _ (by simp)
    | nullResp => exact noRetry_throw _ (by simp)

/-- A retryable failure of `_authenticated_post` leaves its own request as
the newest log entry. -/
theorem authenticated_post_retryable_log (url : String) (bdy : BodyV) (st : St) (m : String)
    (st2 : St) (h : authenticated_post url bdy st = (.error (.retryableOperation m), st2)) :
    ∃ (tok : String) (rest : List NetEvent), st2.log = .post url (some tok) bdy :: rest := by
  unfold authenticated_post at h
  cases hca : st.client.access_token with
  | none => simp [hca] at h
  | some tok =>
    cases hsc : st.script with
    | nil => simp [netPost, hca, hsc] at h
    | cons r rest =>
      cases r with
      | connFail => simp [netPost, hca, hsc] at h
      | ok j =>
        by_cases h401 : j.status = 401
        · simp [netPost, hca, hsc, h401] at h
        · by_cases h72 : resultIs j RETRYABLE_RESULT_CODE = true
          · simp [netPost, hca, hsc, h401, h72] at h
            exact ⟨tok, st.log, by rw [← h.2]⟩
          · by_cases hnz : resultNonzero j = true
            · simp [netPost, hca, hsc, h401, h72, hnz] at h
            · simp [netPost, hca, hsc, h401, h72, hnz] at h

theorem retrySrc_bind {α β : Type} {x : M α} {f : α → M β}
    (hx : RetrySrc x) (hf : ∀ a, RetrySrc (f a)) : RetrySrc (x >>= f) := by
  intro st m hr
  show ∃ u bearer bd rest, ((M.bind x f st).2).log = _ ∧ _
  have hr2 : (M.bind x f st).1 = .error (.retryableOperation m) := hr
  unfold M.bind at hr2 ⊢
  cases hxs : x st with
  | mk r st2 =>
    rw [hxs] at hr2
    cases r with
    | ok a =>
      have := hf a st2 m (by simpa using hr2)
      simpa using this
    | error e =>
      simp only [Except.error.injEq] at hr2
      have := hx st m (by rw [hxs, hr2])
      rw [hxs] at this
      simpa using this

theorem retrySrc_ite {α : Type} {c : Prop} [Decidable c] {x y : M α}
    (hx : RetrySrc x) (hy : RetrySrc y) : RetrySrc (if c then x else y) := by
  by_cases h : c <;> simp [h, hx, hy]

theorem retrySrc_tryCatch_catchall {α : Type} {x : M α} {h : RiscoError → Option (M α)}
    (hh : ∀ e k, h e = some k → RetrySrc k)
    (hc : ∀ m, h (.retryableOperation m) ≠ none) : RetrySrc (M.tryCatch x h) := by
  intro st m hr
  have hr2 : (M.tryCatch x h st).1 = .error (.retryableOperation m) := hr
  unfold M.tryCatch at hr2 ⊢
  cases hxs : x st with
  | mk r st2 =>
    rw [hxs] at hr2
    cases r with
    | ok a => simp at hr2
    | error e =>
      dsimp only at hr2
      dsimp only
      cases hhe : h e with
      | some k =>
        try rw [hhe] at hr2
        try rw [hhe]
        dsimp only at hr2
        try dsimp only
        exact hh e k hhe st2 m hr2
      | none =>
        try rw [hhe] at hr2
        dsimp only at hr2
        simp only [Except.error.injEq] at hr2
        rw [hr2] at hhe
        exact absurd hhe (hc m)

theorem retrySrc_authenticated_post_site (b : BodyV) :
    RetrySrc (authenticated_post SITE_URL b) := by
  intro st m hr
  cases hap : authenticated_post SITE_URL b st with
  | mk r st2 =>
    rw [hap] at hr
    cases r with
    | ok p => simp at hr
    | error e =>
      simp only [Except.error.injEq] at hr
      have hap2 : authenticated_post SITE_URL b st = (.error (.retryableOperation m), st2) := by
        rw [hap, hr]
      obtain ⟨tok, rest, hlog⟩ := authenticated_post_retryable_log _ _ _ m _ hap2
      exact ⟨SITE_URL, some tok, b, rest, hlog, Or.inl rfl⟩

theorem retrySrc_authenticated_post_pin (s : String) (b : BodyV) :
    RetrySrc (authenticated_post (pctS PIN_URL s) b) := by
  intro st m hr
  cases hap : authenticated_post (pctS PIN_URL s) b st with
  | mk r st2 =>
    rw [hap] at hr
    cases r with
    | ok p => simp at hr
    | error e =>
      simp only [Except.error.injEq] at hr
      have hap2 : authenticated_post (pctS PIN_URL s) b st
          = (.error (.retryableOperation m), st2) := by
        rw [hap, hr]
      obtain ⟨tok, rest, hlog⟩ := authenticated_post_retryable_log _ _ _ m _ hap2
      exact ⟨pctS PIN_URL s, some tok, b, rest, hlog, Or.inr ⟨s, rfl⟩⟩

theorem retrySrc_login_site : RetrySrc login_site := by
  unfold login_site
  refine retrySrc_bind (retrySrc_authenticated_post_site _) fun resp => ?_
  refine retrySrc_of_noRetry ?_
  cases resp with
  | sitesResp s =>
    cases s with
    | nil => exact noRetry_throw _ (by simp)
    | cons s0 t => exact noRetry_modifyClient _
  | loginResp tok => exact noRetry_throw _ (by simp)
  | pinResp s => exact noRetry_throw _ (by simp)
  | stateResp r => exact noRetry_throw _ (by simp)
  | rawResp r => exact noRetry_throw _ (by simp)
  | eventsResp l => exact noRetry_throw _ (by simp)
  | nullResp => exact noRetry_throw _ (by simp)

theorem retrySrc_login_session : RetrySrc login_session := by
  unfold login_session
  refine retrySrc_bind (retrySrc_of_noRetry noRetry_getClient) fun c => ?_
  refine retrySrc_bind (retrySrc_authenticated_post_pin _ _) fun resp => ?_
  refine retrySrc_of_noRetry ?_
  cases resp with
  | pinResp s => exact noRetry_modifyClient _
  | loginResp tok => exact noRetry_throw _ (by simp)
  | sitesResp s => exact noRetry_throw _ (by simp)
  | stateResp r => exact noRetry_throw _ (by simp)
  | rawResp r => exact noRetry_throw _ (by simp)
  | eventsResp l => exact noRetry_throw _ (by simp)
  | nullResp => exact noRetry_throw _ (by simp)

theorem retrySrc_site_post_loop {login_ : M Unit} (hl : RetrySrc login_)
    (su : String) (b : BaseBody) :
    ∀ (lf i : Nat) (fcp : Bool), RetrySrc (site_post_loop login_ su b lf i fcp) := by
  intro lf
  induction lf with
  | zero =>
    intro i fcp
    rw [site_post_loop]
    exact retrySrc_of_noRetry (noRetry_throw _ (by simp))
  | succ n ih =>
    intro i fcp
    rw [site_post_loop]
    refine retrySrc_tryCatch_catchall ?_ ?_
    · intro e k hk
      cases e with
      | unauthorized m =>
        simp only [Option.some.injEq] at hk
        subst hk
        refine retrySrc_ite (retrySrc_of_noRetry (noRetry_throw _ (by simp))) ?_
        refine retrySrc_bind (retrySrc_of_noRetry noRetry_close) fun _ => ?_
        exact retrySrc_bind hl fun _ => ih _ _
      | retryableOperation m =>
        simp only [Option.some.injEq] at hk
        subst hk
        exact retrySrc_ite (retrySrc_of_noRetry (noRetry_throw _ (by simp))) (ih _ _)
      | cannotConnect => simp at hk
      | operation m => simp at hk
      | clientConnectorError => simp at hk
      | typeError => simp at hk
      | keyError s => simp at hk
      | valueError => simp at hk
      | nameError => simp at hk
      | indexError => simp at hk
      | attributeError => simp at hk
      | scriptEnd => simp at hk
      | outOfFuel => simp at hk
    · intro m
      simp

theorem retrySrc_site_postF {login_ : M Unit} (hl : RetrySrc login_)
    (url : String) (b : BaseBody) : RetrySrc (site_postF login_ url b) := by
  unfold site_postF
  exact retrySrc_bind (retrySrc_of_noRetry noRetry_getClient) fun c =>
    retrySrc_site_post_loop hl _ _ _ _ _

theorem retrySrc_get_stateF {login_ : M Unit} (hl : RetrySrc login_) :
    RetrySrc (get_stateF login_) := by
  unfold get_stateF
  refine retrySrc_bind (retrySrc_site_postF hl _ _) fun ra => ?_
  refine retrySrc_of_noRetry ?_
  cases ra.1 with
  | stateResp raw => exact noRetry_pure _
  | loginResp tok => exact noRetry_throw _ (by simp)
  | sitesResp s => exact noRetry_throw _ (by simp)
  | pinResp s => exact noRetry_throw _ (by simp)
  | rawResp r => exact noRetry_throw _ (by simp)
  | eventsResp l => exact noRetry_throw _ (by simp)
  | nullResp => exact noRetry_throw _ (by simp)

theorem retrySrc_init_system_partion_typeF {login_ : M Unit} (hl : RetrySrc login_) :
    RetrySrc (init_system_partion_typeF login_) := by
  unfold init_system_partion_typeF
  refine retrySrc_bind (retrySrc_get_stateF hl) fun alarm => ?_
  refine retrySrc_of_noRetry ?_
  cases (Alarm.partitions alarm).map Prod.snd with
  | nil => exact noRetry_throw _ (by simp)
  | cons first t => exact noRetry_ite (noRetry_modifyClient _) (noRetry_modifyClient _)

theorem retrySrc_login : ∀ (fuel : Nat) (arg : Option Transport), RetrySrc (login fuel arg) := by
  intro fuel
  induction fuel with
  | zero =>
    intro arg
    rw [login.eq_def]
    refine retrySrc_bind (retrySrc_of_noRetry noRetry_getClient) fun c => ?_
    exact retrySrc_ite (retrySrc_of_noRetry (noRetry_pure _))
      (retrySrc_of_noRetry (noRetry_throw _ (by simp)))
  | succ n ih =>
    intro arg
    rw [login.eq_def]
    refine retrySrc_bind (retrySrc_of_noRetry noRetry_getClient) fun c => ?_
    refine retrySrc_ite (retrySrc_of_noRetry (noRetry_pure _)) ?_
    refine retrySrc_bind (retrySrc_of_noRetry (noRetry_init_session _)) fun _ => ?_
    refine retrySrc_bind (retrySrc_of_noRetry noRetry_login_user_pass) fun _ => ?_
    refine retrySrc_bind retrySrc_login_site fun _ => ?_
    refine retrySrc_bind retrySrc_login_session fun _ => ?_
    exact retrySrc_init_system_partion_typeF (ih none)

theorem exceptMap_error_iff {α β : Type} (f : α → β) (x : Except RiscoError α)
    (e : RiscoError) : (f <$> x = .error e) ↔ x = .error e := by
  cases x <;> simp [Except.map]

/-- `str.format` raises only `ValueError`, `KeyError` or `IndexError` — never
a `RetryableOperationError`. -/
theorem pyFormatGo_no_retry :
    ∀ (fuel : Nat) (l : List Char) (args : List String) (m : String),
      pyFormatGo fuel l args ≠ .error (.retryableOperation m) := by
  intro fuel l args
  induction fuel, l, args using pyFormatGo.induct <;> intro m <;>
    try simp_all [pyFormatGo, exceptMap_error_iff]
  all_goals rename_i hrest hdig hlen hnot
  all_goals rw [List.getElem?_eq_none hlen]
  all_goals simp

theorem noRetry_pyFormat (t : String) (args : List String) :
    NoRetryErr (M.ofExcept (pyFormat t args)) := by
  refine noRetry_ofExcept _ fun m hc => ?_
  unfold pyFormat at hc
  rw [exceptMap_error_iff] at hc
  exact pyFormatGo_no_retry _ _ _ m hc

theorem noRetry_jsonLoads (s : String) : NoRetryErr (M.ofExcept (jsonLoads s)) :=
  noRetry_ofExcept _ (by simp [jsonLoads])

theorem retrySrc_site_post (fuel : Nat) (url : String) (b : BaseBody) :
    RetrySrc (site_post fuel url b) :=
  retrySrc_site_postF (retrySrc_login fuel none) url b

theorem retrySrc_send_control_command (fuel : Nat) (b : BaseBody) :
    RetrySrc (send_control_command fuel b) := by
  unfold send_control_command
  refine retrySrc_bind (retrySrc_of_noRetry noRetry_getClient) fun c => ?_
  refine retrySrc_bind (retrySrc_of_noRetry (noRetry_getAttr _)) fun curl => ?_
  refine retrySrc_bind (retrySrc_site_post fuel curl b) fun ra => ?_
  refine retrySrc_of_noRetry ?_
  cases ra.1 with
  | rawResp raw => exact noRetry_pure _
  | loginResp tok => exact noRetry_throw _ (by simp)
  | sitesResp s => exact noRetry_throw _ (by simp)
  | pinResp s => exact noRetry_throw _ (by simp)
  | stateResp r => exact noRetry_throw _ (by simp)
  | eventsResp l => exact noRetry_throw _ (by simp)
  | nullResp => exact noRetry_throw _ (by simp)

/-! ## Claim C4 -/

/-- Does the outcome carry a `RetryableOperationError`? -/
def isRetryableErr {α : Type} : Except RiscoError α → Bool
  | .error (.retryableOperation _) => true
  | _ => false

/-- A fresh client whose script answers the credential post successfully and
then the site-discovery post with the retryable result code 72. -/
def c4LoginSt : St :=
  ⟨initClient "u" "p" "1234" "en",
   [.ok ⟨200, "", none, .loginResp (some "tok")⟩,
    .ok ⟨200, "", some 72, .nullResp⟩], [], 0⟩

/-- **C4** counterexample: `login()` — a public operation — surfaces a raw
`RetryableOperationError` to its caller when the site-discovery response
carries result code 72, because `_login_site` posts through
`_authenticated_post` directly, outside the `_site_post` retry loop. -/
theorem c4_retryable_escapes_login_counterexample :
    isRetryableErr (login 5 none c4LoginSt).1 = true := by
  simp [isRetryableErr, login, init_session, Pyrisco.close, login_user_pass, login_site,
    authenticated_post, netPost, c4LoginSt, initClient, pyTruthyOpt, resultIs,
    resultNonzero, RETRYABLE_RESULT_CODE]

/-- **C4** amended: a `RetryableOperationError` raised by a site-scoped
attempt itself never escapes — it is absorbed by a retry or converted to
`OperationError` — but the direct `_authenticated_post` calls of the login
flow (site discovery and PIN exchange) are outside the retry loop, and a
retryable failure escaping any public operation always originates there: when
any of the public entry points ends in `RetryableOperationError`, the newest
logged request is a post to `SITE_URL` or to a `PIN_URL` instance. -/
theorem c4_retryable_escape_provenance :
    (∀ (fuel : Nat) (arg : Option Transport), RetrySrc (login fuel arg))
  ∧ (∀ (fuel : Nat) (url : String) (b : BaseBody), RetrySrc (site_post fuel url b))
  ∧ (∀ fuel : Nat, RetrySrc (get_state fuel))
  ∧ (∀ (fuel : Nat) (p : Int), RetrySrc (arm fuel p))
  ∧ (∀ (fuel : Nat) (p : Int), RetrySrc (disarm fuel p))
  ∧ (∀ (fuel : Nat) (p : Int), RetrySrc (partial_arm fuel p))
  ∧ (∀ (fuel : Nat) (p : Int) (g : GroupArg), RetrySrc (group_arm fuel p g))
  ∧ (∀ (fuel : Nat) (nt : String) (cnt : Int), RetrySrc (get_events fuel nt cnt))
  ∧ (∀ (fuel : Nat) (z : Int) (bp : Bool), RetrySrc (bypass_zone fuel z bp))
  ∧ RetrySrc Pyrisco.close := by
  refine ⟨retrySrc_login, retrySrc_site_post, ?_, ?_, ?_, ?_, ?_, ?_, ?_,
    retrySrc_of_noRetry noRetry_close⟩
  · intro fuel
    exact retrySrc_get_stateF (retrySrc_login fuel none)
  · intro fuel p
    unfold arm
    refine retrySrc_bind (retrySrc_of_noRetry noRetry_getClient) fun c => ?_
    refine retrySrc_bind (retrySrc_of_noRetry (noRetry_getAttr _)) fun tmpl => ?_
    refine retrySrc_bind (retrySrc_of_noRetry (noRetry_getAttr _)) fun code => ?_
    refine retrySrc_bind (retrySrc_of_noRetry (noRetry_pyFormat _ _)) fun bs => ?_
    refine retrySrc_bind (retrySrc_of_noRetry (noRetry_jsonLoads _)) fun bd => ?_
    exact retrySrc_send_control_command fuel bd
  · intro fuel p
    unfold disarm
    refine retrySrc_bind (retrySrc_of_noRetry noRetry_getClient) fun c => ?_
    refine retrySrc_bind (retrySrc_of_noRetry (noRetry_getAttr _)) fun tmpl => ?_
    refine retrySrc_bind (retrySrc_of_noRetry (noRetry_getAttr _)) fun code => ?_
    refine retrySrc_bind (retrySrc_of_noRetry (noRetry_pyFormat _ _)) fun bs => ?_
    refine retrySrc_bind (retrySrc_of_noRetry (noRetry_jsonLoads _)) fun bd => ?_
    exact retrySrc_send_control_command fuel bd
  · intro fuel p
    unfold partial_arm
    refine retrySrc_bind (retrySrc_of_noRetry noRetry_getClient) fun c => ?_
    refine retrySrc_bind (retrySrc_of_noRetry (noRetry_getAttr _)) fun tmpl => ?_
    refine retrySrc_bind (retrySrc_of_noRetry (noRetry_getAttr _)) fun code => ?_
    refine retrySrc_bind (retrySrc_of_noRetry (noRetry_pyFormat _ _)) fun bs => ?_
    refine retrySrc_bind (retrySrc_of_noRetry (noRetry_jsonLoads _)) fun bd => ?_
    exact retrySrc_send_control_command fuel bd
  · intro fuel p g
    unfold group_arm
    cases g with
    | grpInt n => exact retrySrc_of_noRetry (noRetry_throw _ (by simp))
    | grpStr s2 =>
      dsimp only
      have hjp : ∀ g2 : Nat, RetrySrc (do
          let c ← M.getClient
          let tmpl ← getAttr c.group_body_template
          let bodyStr ← M.ofExcept (pyFormat tmpl [toString p, toString g2, toString (3 : Int)])
          let body ← M.ofExcept (jsonLoads bodyStr)
          send_control_command fuel body) := by
        intro g2
        refine retrySrc_bind (retrySrc_of_noRetry noRetry_getClient) fun c => ?_
        refine retrySrc_bind (retrySrc_of_noRetry (noRetry_getAttr _)) fun tmpl => ?_
        refine retrySrc_bind (retrySrc_of_noRetry (noRetry_pyFormat _ _)) fun bs => ?_
        refine retrySrc_bind (retrySrc_of_noRetry (noRetry_jsonLoads _)) fun bd => ?_
        exact retrySrc_send_control_command fuel bd
      cases pyListIndex GROUP_ID_TO_NAME s2 with
      | some n => exact retrySrc_bind (retrySrc_of_noRetry (noRetry_pure _)) fun y => hjp y
      | none => exact retrySrc_bind (retrySrc_of_noRetry (noRetry_throw _ (by simp))) fun y => hjp y
  · intro fuel nt cnt
    unfold get_events
    refine retrySrc_bind (retrySrc_site_post fuel EVENTS_URL _) fun ra => ?_
    refine retrySrc_of_noRetry ?_
    cases ra.1 with
    | eventsResp l => exact noRetry_pure _
    | loginResp tok => exact noRetry_throw _ (by simp)
    | sitesResp s2 => exact noRetry_throw _ (by simp)
    | pinResp s2 => exact noRetry_throw _ (by simp)
    | stateResp r => exact noRetry_throw _ (by simp)
    | rawResp r => exact noRetry_throw _ (by simp)
    | nullResp => exact noRetry_throw _ (by simp)
  · intro fuel z bp
    unfold bypass_zone
    refine retrySrc_bind (retrySrc_site_post fuel BYPASS_URL _) fun ra => ?_
    refine retrySrc_of_noRetry ?_
    cases ra.1 with
    | rawResp raw => exact noRetry_pure _
    | loginResp tok => exact noRetry_throw _ (by simp)
    | sitesResp s2 => exact noRetry_throw _ (by simp)
    | pinResp s2 => exact noRetry_throw _ (by simp)
    | stateResp r => exact noRetry_throw _ (by simp)
    | eventsResp l => exact noRetry_throw _ (by simp)
    | nullResp => exact noRetry_throw _ (by simp)

/-- A mid-session client whose script answers the attempt with 401, the
re-login credential post successfully, and the re-login site discovery with
result code 72. -/
def c4SiteSt : St :=
  ⟨{ initClient "u" "p" "1234" "en" with
       access_token := some "tok0", session_id := some "s0", site_id := some 5,
       session := some ⟨9, .external⟩ },
   [.ok ⟨401, "e1", none, .nullResp⟩,
    .ok ⟨200, "", none, .loginResp (some "tokA")⟩,
    .ok ⟨200, "", some 72, .nullResp⟩], [], 0⟩

/-- **C4** witness: a retryable failure escaping `_site_post` (through the
re-login's site discovery) indeed leaves a `SITE_URL`/`PIN_URL` post as the
newest log entry. -/
theorem c4_retryable_escape_provenance_witness :
    ∃ (u : String) (bearer : Option String) (bd : BodyV) (rest : List NetEvent),
      ((site_post 1 EVENTS_URL .emptyB c4SiteSt).2).log = .post u bearer bd :: rest
        ∧ (u = SITE_URL ∨ ∃ s, u = pctS PIN_URL s) :=
  c4_retryable_escape_provenance.2.1 1 EVENTS_URL .emptyB c4SiteSt
    (pyStr ⟨200, "", some 72, .nullResp⟩)
    (by simp [site_post, site_postF, site_post_loop, login, init_session, Pyrisco.close,
      login_user_pass, login_site, authenticated_post, netPost, c4SiteSt, initClient,
      pyTruthyOpt, resultIs, resultNonzero, RETRYABLE_RESULT_CODE, NUM_RETRIES])

/-! ## Transport-handle hygiene: only self-created handles are ever closed. -/

/-- The created-flag is only set while a self-created handle is held. -/
def Inv2 (c : ClientState) : Prop :=
  c.created_session = true → ∃ t, c.session = some t ∧ t.origin = .selfCreated

/-- The computation preserves `Inv2` and closes only self-created handles. -/
def ClosesOK {α : Type} (x : M α) : Prop :=
  ∀ st : St, Inv2 st.client →
    Inv2 ((x st).2).client ∧
    ∀ t : Transport, NetEvent.closedT t ∈ ((x st).2).log →
      NetEvent.closedT t ∈ st.log ∨ t.origin = .selfCreated

theorem closesOK_pure {α : Type} (a : α) : ClosesOK (M.pure a) :=
  fun _ h => ⟨h, fun _ ht => Or.inl ht⟩

theorem closesOK_pure2 {α : Type} (a : α) : ClosesOK (Pure.pure a : M α) := closesOK_pure a

theorem closesOK_throw {α : Type} (e : RiscoError) : ClosesOK (M.throw e : M α) :=
  fun _ h => ⟨h, fun _ ht => Or.inl ht⟩

theorem closesOK_getClient : ClosesOK M.getClient :=
  fun _ h => ⟨h, fun _ ht => Or.inl ht⟩

theorem closesOK_createTransport : ClosesOK M.createTransport :=
  fun _ h => ⟨h, fun _ ht => Or.inl ht⟩

theorem closesOK_nextNet : ClosesOK M.nextNet := by
  intro st h
  unfold M.nextNet
  cases hs : st.script with
  | nil => exact ⟨h, fun _ ht => Or.inl ht⟩
  | cons r rest => exact ⟨h, fun _ ht => Or.inl ht⟩

theorem closesOK_logPost (url : String) (bearer : Option String) (b : BodyV) :
    ClosesOK (M.logEvent (.post url bearer b)) := by
  intro st h
  refine ⟨h, fun t ht => ?_⟩
  simp only [M.logEvent, List.mem_cons] at ht
  rcases ht with ht | ht
  · simp at ht
  · exact Or.inl ht

theorem closesOK_modifyClient (f : ClientState → ClientState)
    (hf : ∀ c, Inv2 c → Inv2 (f c)) : ClosesOK (M.modifyClient f) :=
  fun _ h => ⟨hf _ h, fun _ ht => Or.inl ht⟩

theorem closesOK_ofExcept {α : Type} (e : Except RiscoError α) : ClosesOK (M.ofExcept e) := by
  cases e with
  | ok a => exact closesOK_pure a
  | error e2 => exact closesOK_throw e2

theorem closesOK_getAttr {α : Type} (o : Option α) : ClosesOK (getAttr o) := by
  cases o with
  | none => exact closesOK_throw _
  | some a => exact closesOK_pure a

theorem closesOK_bind {α β : Type} {x : M α} {f : α → M β}
    (hx : ClosesOK x) (hf : ∀ a, ClosesOK (f a)) : ClosesOK (x >>= f) := by
  intro st h
  simp only [bind_apply]
  cases hxs : x st with
  | mk r st2 =>
    have h2 := hx st h
    rw [hxs] at h2
    dsimp only at h2
    cases r with
    | ok a =>
      dsimp only
      refine ⟨(hf a st2 h2.1).1, fun t ht => ?_⟩
      rcases (hf a st2 h2.1).2 t ht with ht2 | ht2
      · exact h2.2 t ht2
      · exact Or.inr ht2
    | error e =>
      dsimp only
      exact h2

theorem closesOK_ite {α : Type} {c : Prop} [Decidable c] {x y : M α}
    (hx : ClosesOK x) (hy : ClosesOK y) : ClosesOK (if c then x else y) := by
  by_cases h : c <;> simp [h, hx, hy]

theorem closesOK_tryCatch {α : Type} {x : M α} {h : RiscoError → Option (M α)}
    (hx : ClosesOK x) (hh : ∀ e k, h e = some k → ClosesOK k) :
    ClosesOK (M.tryCatch x h) := by
  intro st hi
  simp only [tryCatch_apply]
  cases hxs : x st with
  | mk r st2 =>
    have h2 := hx st hi
    rw [hxs] at h2
    dsimp only at h2
    cases r with
    | ok a =>
      dsimp only
      exact h2
    | error e =>
      dsimp only
      cases hhe : h e with
      | none => exact h2
      | some k =>
        refine ⟨(hh e k hhe st2 h2.1).1, fun t ht => ?_⟩
        rcases (hh e k hhe st2 h2.1).2 t ht with ht2 | ht2
        · exact h2.2 t ht2
        · exact Or.inr ht2

theorem closesOK_netPost (url : String) (bearer : Option String) (b : BodyV) :
    ClosesOK (netPost url bearer b) :=
  closesOK_bind (closesOK_logPost _ _ _) fun _ => closesOK_nextNet

theorem closesOK_close : ClosesOK Pyrisco.close := by
  intro st hi
  cases h1 : st.client.created_session <;> cases h2 : st.client.session <;>
    simp [Pyrisco.close, h1, h2, Inv2]
  all_goals
    first
      | exact fun t ht => Or.inl ht
      | (obtain ⟨t0, ht0, horig⟩ := hi h1
         rw [h2] at ht0
         first
           | exact Option.noConfusion ht0
           | (refine ⟨?_, fun a ha => Or.inl ha⟩
              right
              rw [Option.some.injEq] at ht0
              rw [ht0]
              exact horig))

theorem closesOK_init_session (arg : Option Transport) : ClosesOK (init_session arg) := by
  intro st hi
  cases h1 : st.client.created_session <;> cases h2 : st.client.session <;> cases arg <;>
    simp [init_session, Pyrisco.close, h1, h2, Inv2]
  all_goals
    first
      | exact fun t ht => Or.inl ht
      | (obtain ⟨t0, ht0, horig⟩ := hi h1
         rw [h2] at ht0
         first
           | exact Option.noConfusion ht0
           | (refine ⟨?_, fun a ha => Or.inl ha⟩
              right
              rw [Option.some.injEq] at ht0
              rw [ht0]
              exact horig))

theorem inv2_irrelevant_update (f : ClientState → ClientState)
    (hses : ∀ c2, (f c2).session = c2.session)
    (hcre : ∀ c2, (f c2).created_session = c2.created_session) :
    ∀ c, Inv2 c → Inv2 (f c) := by
  intro c h hcs
  rw [hcre] at hcs
  obtain ⟨t, ht, horig⟩ := h hcs
  exact ⟨t, by rw [hses]; exact ht, horig⟩

theorem closesOK_authenticated_post (url : String) (b : BodyV) :
    ClosesOK (authenticated_post url b) := by
  unfold authenticated_post
  refine closesOK_bind closesOK_getClient fun c => ?_
  cases c.access_token with
  | none => exact closesOK_throw _
  | some tok =>
    refine closesOK_bind (closesOK_netPost _ _ _) fun nr => ?_
    cases nr with
    | connFail => exact closesOK_throw _
    | ok j =>
      refine closesOK_ite (closesOK_throw _) ?_
      refine closesOK_ite (closesOK_throw _) ?_
      exact closesOK_ite (closesOK_throw _) (closesOK_pure _)

theorem closesOK_login_user_pass : ClosesOK login_user_pass := by
  unfold login_user_pass
  refine closesOK_bind closesOK_getClient fun c => ?_
  refine closesOK_bind (closesOK_netPost _ _ _) fun nr => ?_
  cases nr with
  | connFail => exact closesOK_throw _
  | ok j =>
    refine closesOK_ite (closesOK_throw _) ?_
    cases j.response with
    | loginResp tok =>
      refine closesOK_bind
        (closesOK_modifyClient _ (inv2_irrelevant_update _ (fun _ => rfl) (fun _ => rfl)))
        fun _ => ?_
      refine closesOK_bind closesOK_getClient fun c3 => ?_
      exact closesOK_ite (closesOK_pure _) (closesOK_throw _)
    | sitesResp s => exact closesOK_throw _
    | pinResp s => exact closesOK_throw _
    | stateResp r => exact closesOK_throw _
    | rawResp r => exact closesOK_throw _
    | eventsResp l => exact closesOK_throw _
    | nullResp => exact closesOK_throw _

theorem closesOK_login_site : ClosesOK login_site := by
  unfold login_site
  refine closesOK_bind (closesOK_authenticated_post _ _) fun resp => ?_
  cases resp with
  | sitesResp s =>
    cases s with
    | nil => exact closesOK_throw _
    | cons s0 t =>
      exact closesOK_modifyClient _ (inv2_irrelevant_update _ (fun _ => rfl) (fun _ => rfl))
  | loginResp tok => exact closesOK_throw _
  | pinResp s => exact closesOK_throw _
  | stateResp r => exact closesOK_throw _
  | rawResp r => exact closesOK_throw _
  | eventsResp l => exact closesOK_throw _
  | nullResp => exact closesOK_throw _

theorem closesOK_login_session : ClosesOK login_session := by
  unfold login_session
  refine closesOK_bind closesOK_getClient fun c => ?_
  refine closesOK_bind (closesOK_authenticated_post _ _) fun resp => ?_
  cases resp with
  | pinResp s =>
    exact closesOK_modifyClient _ (inv2_irrelevant_update _ (fun _ => rfl) (fun _ => rfl))
  | loginResp tok => exact closesOK_throw _
  | sitesResp s => exact closesOK_throw _
  | stateResp r => exact closesOK_throw _
  | rawResp r => exact closesOK_throw _
  | eventsResp l => exact closesOK_throw _
  | nullResp => exact closesOK_throw _

theorem closesOK_site_post_loop {login_ : M Unit} (hl : ClosesOK login_)
    (su : String) (b : BaseBody) :
    ∀ (lf i : Nat) (fcp : Bool), ClosesOK (site_post_loop login_ su b lf i fcp) := by
  intro lf
  induction lf with
  | zero =>
    intro i fcp
    rw [site_post_loop]
    exact closesOK_throw _
  | succ n ih =>
    intro i fcp
    rw [site_post_loop]
    refine closesOK_tryCatch ?_ ?_
    · refine closesOK_bind closesOK_getClient fun c => ?_
      exact closesOK_bind (closesOK_authenticated_post _ _) fun resp => closesOK_pure _
    · intro e k hk
      cases e with
      | unauthorized m =>
        simp only [Option.some.injEq] at hk
        subst hk
        refine closesOK_ite (closesOK_throw _) ?_
        refine closesOK_bind closesOK_close fun _ => ?_
        exact closesOK_bind hl fun _ => ih _ _
      | retryableOperation m =>
        simp only [Option.some.injEq] at hk
        subst hk
        exact closesOK_ite (closesOK_throw _) (ih _ _)
      | cannotConnect => simp at hk
      | operation m => simp at hk
      | clientConnectorError => simp at hk
      | typeError => simp at hk
      | keyError s => simp at hk
      | valueError => simp at hk
      | nameError => simp at hk
      | indexError => simp at hk
      | attributeError => simp at hk
      | scriptEnd => simp at hk
      | outOfFuel => simp at hk

theorem closesOK_site_postF {login_ : M Unit} (hl : ClosesOK login_)
    (url : String) (b : BaseBody) : ClosesOK (site_postF login_ url b) := by
  unfold site_postF
  exact closesOK_bind closesOK_getClient fun c => closesOK_site_post_loop hl _ _ _ _ _

theorem closesOK_get_stateF {login_ : M Unit} (hl : ClosesOK login_) :
    ClosesOK (get_stateF login_) := by
  unfold get_stateF
  refine closesOK_bind (closesOK_site_postF hl _ _) fun ra => ?_
  cases ra.1 with
  | stateResp raw => exact closesOK_pure _
  | loginResp tok => exact closesOK_throw _
  | sitesResp s => exact closesOK_throw _
  | pinResp s => exact closesOK_throw _
  | rawResp r => exact closesOK_throw _
  | eventsResp l => exact closesOK_throw _
  | nullResp => exact closesOK_throw _

theorem closesOK_init_system_partion_typeF {login_ : M Unit} (hl : ClosesOK login_) :
    ClosesOK (init_system_partion_typeF login_) := by
  unfold init_system_partion_typeF
  refine closesOK_bind (closesOK_get_stateF hl) fun alarm => ?_
  cases (Alarm.partitions alarm).map Prod.snd with
  | nil => exact closesOK_throw _
  | cons first t =>
    exact closesOK_ite
      (closesOK_modifyClient _ (inv2_irrelevant_update _ (fun _ => rfl) (fun _ => rfl)))
      (closesOK_modifyClient _ (inv2_irrelevant_update _ (fun _ => rfl) (fun _ => rfl)))

theorem closesOK_login : ∀ (fuel : Nat) (arg : Option Transport), ClosesOK (login fuel arg) := by
  intro fuel
  induction fuel with
  | zero =>
    intro arg
    rw [login.eq_def]
    refine closesOK_bind closesOK_getClient fun c => ?_
    exact closesOK_ite (closesOK_pure _) (closesOK_throw _)
  | succ n ih =>
    intro arg
    rw [login.eq_def]
    refine closesOK_bind closesOK_getClient fun c => ?_
    refine closesOK_ite (closesOK_pure _) ?_
    refine closesOK_bind (closesOK_init_session _) fun _ => ?_
    refine closesOK_bind closesOK_login_user_pass fun _ => ?_
    refine closesOK_bind closesOK_login_site fun _ => ?_
    refine closesOK_bind closesOK_login_session fun _ => ?_
    exact closesOK_init_system_partion_typeF (ih none)

theorem closesOK_site_post (fuel : Nat) (url : String) (b : BaseBody) :
    ClosesOK (site_post fuel url b) :=
  closesOK_site_postF (closesOK_login fuel none) url b

theorem closesOK_send_control_command (fuel : Nat) (b : BaseBody) :
    ClosesOK (send_control_command fuel b) := by
  unfold send_control_command
  refine closesOK_bind closesOK_getClient fun c => ?_
  refine closesOK_bind (closesOK_getAttr _) fun curl => ?_
  refine closesOK_bind (closesOK_site_post fuel curl b) fun ra => ?_
  cases ra.1 with
  | rawResp raw => exact closesOK_pure _
  | loginResp tok => exact closesOK_throw _
  | sitesResp s => exact closesOK_throw _
  | pinResp s => exact closesOK_throw _
  | stateResp r => exact closesOK_throw _
  | eventsResp l => exact closesOK_throw _
  | nullResp => exact closesOK_throw _

theorem closesOK_get_state (fuel : Nat) : ClosesOK (get_state fuel) :=
  closesOK_get_stateF (closesOK_login fuel none)

theorem closesOK_arm (fuel : Nat) (p : Int) : ClosesOK (arm fuel p) := by
  unfold arm
  refine closesOK_bind closesOK_getClient fun c => ?_
  refine closesOK_bind (closesOK_getAttr _) fun tmpl => ?_
  refine closesOK_bind (closesOK_getAttr _) fun code => ?_
  refine closesOK_bind (closesOK_ofExcept _) fun bs => ?_
  refine closesOK_bind (closesOK_ofExcept _) fun bd => ?_
  exact closesOK_send_control_command fuel bd

theorem closesOK_disarm (fuel : Nat) (p : Int) : ClosesOK (disarm fuel p) := by
  unfold disarm
  refine closesOK_bind closesOK_getClient fun c => ?_
  refine closesOK_bind (closesOK_getAttr _) fun tmpl => ?_
  refine closesOK_bind (closesOK_getAttr _) fun code => ?_
  refine closesOK_bind (closesOK_ofExcept _) fun bs => ?_
  refine closesOK_bind (closesOK_ofExcept _) fun bd => ?_
  exact closesOK_send_control_command fuel bd

theorem closesOK_partial_arm (fuel : Nat) (p : Int) : ClosesOK (partial_arm fuel p) := by
  unfold partial_arm
  refine closesOK_bind closesOK_getClient fun c => ?_
  refine closesOK_bind (closesOK_getAttr _) fun tmpl => ?_
  refine closesOK_bind (closesOK_getAttr _) fun code => ?_
  refine closesOK_bind (closesOK_ofExcept _) fun bs => ?_
  refine closesOK_bind (closesOK_ofExcept _) fun bd => ?_
  exact closesOK_send_control_command fuel bd

theorem closesOK_group_arm (fuel : Nat) (p : Int) (g : GroupArg) :
    ClosesOK (group_arm fuel p g) := by
  unfold group_arm
  cases g with
  | grpInt n => exact closesOK_throw _
  | grpStr s2 =>
    dsimp only
    have hjp : ∀ g2 : Nat, ClosesOK (do
        let c ← M.getClient
        let tmpl ← getAttr c.group_body_template
        let bodyStr ← M.ofExcept (pyFormat tmpl [toString p, toString g2, toString (3 : Int)])
        let body ← M.ofExcept (jsonLoads bodyStr)
        send_control_command fuel body) := by
      intro g2
      refine closesOK_bind closesOK_getClient fun c => ?_
      refine closesOK_bind (closesOK_getAttr _) fun tmpl => ?_
      refine closesOK_bind (closesOK_ofExcept _) fun bs => ?_
      refine closesOK_bind (closesOK_ofExcept _) fun bd => ?_
      exact closesOK_send_control_command fuel bd
    cases pyListIndex GROUP_ID_TO_NAME s2 with
    | some n => exact closesOK_bind (closesOK_pure _) fun y => hjp y
    | none => exact closesOK_bind (closesOK_throw _) fun y => hjp y

theorem closesOK_get_events (fuel : Nat) (nt : String) (cnt : Int) :
    ClosesOK (get_events fuel nt cnt) := by
  unfold get_events
  refine closesOK_bind (closesOK_site_post fuel EVENTS_URL _) fun ra => ?_
  cases ra.1 with
  | eventsResp l => exact closesOK_pure _
  | loginResp tok => exact closesOK_throw _
  | sitesResp s => exact closesOK_throw _
  | pinResp s => exact closesOK_throw _
  | stateResp r => exact closesOK_throw _
  | rawResp r => exact closesOK_throw _
  | nullResp => exact closesOK_throw _

theorem closesOK_bypass_zone (fuel : Nat) (z : Int) (bp : Bool) :
    ClosesOK (bypass_zone fuel z bp) := by
  unfold bypass_zone
  refine closesOK_bind (closesOK_site_post fuel BYPASS_URL _) fun ra => ?_
  cases ra.1 with
  | rawResp raw => exact closesOK_pure _
  | loginResp tok => exact closesOK_throw _
  | sitesResp s => exact closesOK_throw _
  | pinResp s => exact closesOK_throw _
  | stateResp r => exact closesOK_throw _
  | eventsResp l => exact closesOK_throw _
  | nullResp => exact closesOK_throw _

/-! ## Claim C9 -/

/-- One public call on the client, as issued by an embedding application
(any raised exception is caught by the application; the client state persists
either way). -/
inductive Op where
  | opLogin (fuel : Nat) (s : Option Transport)
  | opClose
  | opGetState (fuel : Nat)
  | opArm (fuel : Nat) (p : Int)
  | opDisarm (fuel : Nat) (p : Int)
  | opPartialArm (fuel : Nat) (p : Int)
  | opGroupArm (fuel : Nat) (p : Int) (g : GroupArg)
  | opGetEvents (fuel : Nat) (nt : String) (cnt : Int)
  | opBypassZone (fuel : Nat) (z : Int) (bp : Bool)

/-- Run one public call, keeping the resulting state. -/
def runOp : Op → St → St
  | .opLogin fuel s, st => (login fuel s st).2
  | .opClose, st => (Pyrisco.close st).2
  | .opGetState fuel, st => (get_state fuel st).2
  | .opArm fuel p, st => (arm fuel p st).2
  | .opDisarm fuel p, st => (disarm fuel p st).2
  | .opPartialArm fuel p, st => (partial_arm fuel p st).2
  | .opGroupArm fuel p g, st => (group_arm fuel p g st).2
  | .opGetEvents fuel nt cnt, st => (get_events fuel nt cnt st).2
  | .opBypassZone fuel z bp, st => (bypass_zone fuel z bp st).2

/-- Run a sequence of public calls. -/
def runOps (ops : List Op) (st : St) : St :=
  ops.foldl (fun s op => runOp op s) st

theorem runOp_closes (op : Op) (st : St) (hi : Inv2 st.client) :
    Inv2 (runOp op st).client ∧
    ∀ t : Transport, NetEvent.closedT t ∈ (runOp op st).log →
      NetEvent.closedT t ∈ st.log ∨ t.origin = .selfCreated := by
  cases op with
  | opLogin fuel s => exact closesOK_login fuel s st hi
  | opClose => exact closesOK_close st hi
  | opGetState fuel => exact closesOK_get_state fuel st hi
  | opArm fuel p => exact closesOK_arm fuel p st hi
  | opDisarm fuel p => exact closesOK_disarm fuel p st hi
  | opPartialArm fuel p => exact closesOK_partial_arm fuel p st hi
  | opGroupArm fuel p g => exact closesOK_group_arm fuel p g st hi
  | opGetEvents fuel nt cnt => exact closesOK_get_events fuel nt cnt st hi
  | opBypassZone fuel z bp => exact closesOK_bypass_zone fuel z bp st hi

theorem runOps_closes (ops : List Op) :
    ∀ st : St, Inv2 st.client →
      Inv2 (runOps ops st).client ∧
      ∀ t : Transport, NetEvent.closedT t ∈ (runOps ops st).log →
        NetEvent.closedT t ∈ st.log ∨ t.origin = .selfCreated := by
  induction ops with
  | nil => exact fun st hi => ⟨hi, fun t ht => Or.inl ht⟩
  | cons op rest ih =>
    intro st hi
    have h1 := runOp_closes op st hi
    have h2 := ih (runOp op st) h1.1
    rw [runOps, List.foldl_cons]
    refine ⟨h2.1, fun t ht => ?_⟩
    rcases h2.2 t ht with ht2 | ht2
    · exact h1.2 t ht2
    · exact Or.inr ht2

/-- **C9**: `close()` clears the session token unconditionally and returns
normally (first conjunct); when the client itself created the transport
handle, `close()` closes it and clears the self-created flag (second
conjunct); with the flag unset — in particular with no transport at all — it
changes nothing beyond the session token, closing no handle (third and fourth
conjuncts); a freshly constructed client satisfies the handle invariant
(fifth conjunct); and through any sequence of public calls from a state
satisfying the invariant, every transport handle that ever gets closed is
self-created — an externally supplied handle is never closed (sixth
conjunct). -/
theorem c9_close_transport_discipline :
    (∀ st : St, (Pyrisco.close st).1 = .ok ()
       ∧ (Pyrisco.close st).2.client.session_id = none)
  ∧ (∀ (st : St) (t : Transport),
       st.client.created_session = true → st.client.session = some t →
       (Pyrisco.close st).2.log = .closedT t :: st.log
         ∧ (Pyrisco.close st).2.client.session = none
         ∧ (Pyrisco.close st).2.client.created_session = false)
  ∧ (∀ st : St, st.client.created_session = false →
       (Pyrisco.close st).2 =
         { st with client := { st.client with session_id := none } })
  ∧ (∀ st : St, st.client.session = none →
       (Pyrisco.close st).2 =
         { st with client := { st.client with session_id := none } })
  ∧ (∀ u p pin lang : String, Inv2 (initClient u p pin lang))
  ∧ (∀ (ops : List Op) (st : St), Inv2 st.client →
       ∀ t : Transport, NetEvent.closedT t ∈ (runOps ops st).log →
         NetEvent.closedT t ∈ st.log ∨ t.origin = .selfCreated) := by
  refine ⟨?_, ?_, ?_, ?_, ?_, ?_⟩
  · intro st
    cases h1 : st.client.created_session <;> cases h2 : st.client.session <;>
      simp [Pyrisco.close, h1, h2]
  · intro st t h1 h2
    refine ⟨?_, ?_, ?_⟩ <;> simp [Pyrisco.close, h1, h2]
  · intro st h1
    simp [Pyrisco.close, h1]
  · intro st h2
    cases h1 : st.client.created_session <;> simp [Pyrisco.close, h1, h2]
  · intro u p pin lang
    intro hcs
    simp [initClient] at hcs
  · intro ops st hi
    exact (runOps_closes ops st hi).2

/-- **C9** witness: a created-session client's `close()` logs exactly the
self-created handle; a login with an externally supplied handle followed by
`close()` closes nothing. -/
theorem c9_close_transport_discipline_witness :
    (Pyrisco.close
        ⟨{ panelClient with session := some ⟨3, .selfCreated⟩, created_session := true },
         [], [], 4⟩).2.log = [.closedT ⟨3, .selfCreated⟩]
  ∧ (∀ t : Transport,
       NetEvent.closedT t ∈
         (runOps [.opLogin 5 (some ⟨7, .external⟩), .opClose] emptyTokSt).log →
       NetEvent.closedT t ∈ emptyTokSt.log ∨ t.origin = .selfCreated) :=
  ⟨(c9_close_transport_discipline.2.1
      ⟨{ panelClient with session := some ⟨3, .selfCreated⟩, created_session := true },
       [], [], 4⟩ ⟨3, .selfCreated⟩ rfl rfl).1,
   c9_close_transport_discipline.2.2.2.2.2 [.opLogin 5 (some ⟨7, .external⟩), .opClose]
     emptyTokSt (by intro hcs; simp [emptyTokSt, initClient] at hcs)⟩

end Pyrisco
